import Mathlib

/-!
Verification of the aviator-parser-ts scripting engine.

This file is a shallow embedding, in Lean 4, of the core of the
aviator-parser-ts repository: the lexer (src/lexer.ts), the Pratt
expression parser (src/parser.ts), the statement-level script parser
(src/script_parser.ts), the tree-walking interpreter (src/interpreter.ts,
the scope-chain version), the pending-execution engine (src/executor),
and the static analyzer (src/analyzer).

Modelling conventions:
  * Characters are represented by their char codes (Nat), as the
    TypeScript lexer works on charCodeAt values; a read past the end of
    the input yields 0, as in the source's charAt helper.
  * Mutable objects become explicit state: the lexer is a LexState record,
    the interpreter environment is a heap of scopes addressed by index
    (scopes are never deallocated, matching the JS memory model where
    closures keep frames alive), and the symbol tables of the analyzer
    are a heap of tables.
  * Thrown JS exceptions become Except results.
  * General recursion (the lexer's scanning loops, the parsers, the
    interpreter) is made total with an explicit fuel argument that is
    structurally decreasing, so that everything evaluates by kernel
    reduction.
  * Number literals are decoded only for plain decimal integer lexemes
    (every script evaluated in this file uses only such literals); the
    source delegates to the host's Number().
-/

namespace Aviator

/-- Char codes, as produced by JS charCodeAt. -/
abbrev CharCode := Nat

/-! ## Tokens (src/token.ts) -/

inductive TokenType where
  | ADD | SUBTRACT | MULTIPLY | DIVIDE | MOD | POW
  | BIT_AND | BIT_OR | BIT_XOR | BIT_NOT
  | SIGNED_BIT_SHIFT_LEFT | SIGNED_BIT_SHIFT_RIGHT | UNSIGNED_BIT_SHIFT_RIGHT
  | LIKE | EQUAL | NOT_EQUAL
  | GREATER_THAN | GREATER_THAN_EQUAL | LESS_THAN | LESS_THAN_EQUAL
  | LOGIC_AND | LOGIC_OR | LOGIC_NOT
  | CONDITIONAL | COLON | COMMA | SEMICOLON
  | LEFT_PAREN | RIGHT_PAREN | LEFT_BRACKET | RIGHT_BRACKET
  | LEFT_BRACE | RIGHT_BRACE
  | DOT
  | IF | ELSE | ELSE_IF | FOR | IN | WHILE | BREAK | CONTINUE | RETURN
  | TRY | CATCH | FINALLY | THROW
  | FN | LAMBDA | ARROW | END
  | COMMENT
  | LET | NEW | USE
  | TRUE | FALSE | NIL
  | ASSIGN
  | IDENTIFIER | NUMBER | STRING | REGEX
  | EOF
  deriving DecidableEq, Repr

structure Token where
  type : TokenType
  lexeme : String
  /-- start offset; Int because the lexer cursor starts at -1. -/
  start : Int
  stop : Int
  line : Nat
  deriving DecidableEq, Repr

/-- Token.KEYWORDS_MAP from src/token.ts. -/
def keywordsMap : List (String × TokenType) :=
  [("if", .IF), ("else", .ELSE), ("elsif", .ELSE_IF),
   ("for", .FOR), ("in", .IN), ("while", .WHILE),
   ("break", .BREAK), ("continue", .CONTINUE), ("return", .RETURN),
   ("try", .TRY), ("catch", .CATCH), ("finally", .FINALLY), ("throw", .THROW),
   ("fn", .FN), ("lambda", .LAMBDA), ("->", .ARROW), ("end", .END),
   ("true", .TRUE), ("false", .FALSE), ("nil", .NIL),
   ("let", .LET), ("new", .NEW), ("use", .USE)]

/-! ## LexerUtil (src/util.ts) -/

namespace LexerUtil

def isAlpha (ch : CharCode) : Bool :=
  (97 ≤ ch && ch ≤ 122) || (65 ≤ ch && ch ≤ 90)

def isIdentifierStart (ch : CharCode) : Bool :=
  isAlpha ch || ch == 95

def isDigit (ch : CharCode) : Bool :=
  48 ≤ ch && ch ≤ 57

def isIdentifierRest (ch : CharCode) : Bool :=
  isAlpha ch || isDigit ch || ch == 95

def isNotIdentifierStart (ch : CharCode) : Bool :=
  !(isIdentifierStart ch)

def isStringLiteralStart (ch : CharCode) : Bool :=
  ch == 39 || ch == 34

def isNotEOL (ch : CharCode) : Bool :=
  ch != 10 && ch != 13

def isWhiteSpace (ch : CharCode) : Bool :=
  ch == 32 || ch == 9 || ch == 12 || ch == 8 || ch == 10 || ch == 13

def toPrintable (ch : CharCode) : String :=
  if ch == 10 then "\\n"
  else if ch == 13 then "\\r"
  else if ch == 9 then "\\t"
  else if ch == 12 then "\\f"
  else if ch == 8 then "\\b"
  else String.mk [Char.ofNat ch]

def isHexDigit (ch : CharCode) : Bool :=
  isDigit ch || (97 ≤ ch && ch ≤ 102) || (65 ≤ ch && ch ≤ 70)

end LexerUtil

/-! ## Lexer (src/lexer.ts) -/

/-- The mutable fields of class AviatorLexer, plus the source text as a
list of char codes. -/
structure LexState where
  code : List CharCode
  cursor : Int
  line : Nat
  column : Int
  lastToken : Token
  deriving Repr

namespace Lexer

/-- AviatorLexer.charAt: 0 past the end of the input (the source returns
0 there; a negative index is never dereferenced by the source). -/
def charAt (code : List CharCode) (i : Int) : CharCode :=
  if i < 0 then 0 else code.getD i.toNat 0

def strToCodes (s : String) : List CharCode :=
  s.data.map Char.toNat

/-- AviatorLexer constructor state; lastToken is the EOF token made by
createEofToken at cursor -1. -/
def initState (code : String) : LexState :=
  { code := strToCodes code, cursor := -1, line := 1, column := -1,
    lastToken := { type := .EOF, lexeme := "", start := 0, stop := 0, line := 1 } }

def currentChar (s : LexState) : CharCode := charAt s.code s.cursor

def peekChar (s : LexState) : CharCode := charAt s.code (s.cursor + 1)

def hasNext (s : LexState) : Bool := peekChar s != 0

/-- nextChar: advances cursor and column; the consumed char is
currentChar of the new state. -/
def nextChar (s : LexState) : LexState :=
  { s with cursor := s.cursor + 1, column := s.column + 1 }

def newLine (s : LexState) : LexState :=
  { s with line := s.line + 1, column := -1 }

/-- LexerState.validTransferFrom for DIVIDE. -/
def divideValidFrom : List TokenType :=
  [.NUMBER, .IDENTIFIER, .RIGHT_PAREN, .RIGHT_BRACKET]

/-- LexerState.validTransferFrom for DOT. -/
def dotValidFrom : List TokenType :=
  [.IDENTIFIER, .RIGHT_BRACKET, .RIGHT_PAREN]

/-- LexerState.invalidTransferFrom for NUMBER. -/
def numberInvalidFrom : List TokenType :=
  [.RIGHT_BRACKET, .RIGHT_PAREN, .IDENTIFIER]

/-- LexerState.expect: consults validTransferFrom, then
invalidTransferFrom, else true. -/
def expect (s : LexState) (t : TokenType) : Bool :=
  match t with
  | .DIVIDE => divideValidFrom.contains s.lastToken.type
  | .DOT => dotValidFrom.contains s.lastToken.type
  | .NUMBER => !(numberInvalidFrom.contains s.lastToken.type)
  | _ => true

/-- AviatorLexer.token: makes a token ending at the current cursor and
records it as lastToken. -/
def mkToken (s : LexState) (t : TokenType) (lexeme : String) : Token × LexState :=
  let tok : Token := { type := t, lexeme := lexeme,
                       start := s.cursor + 1 - (lexeme.length : Int),
                       stop := s.cursor + 1, line := s.line }
  (tok, { s with lastToken := tok })

/-- AviatorLexer.createEofToken. -/
def mkEofToken (s : LexState) : Token × LexState :=
  let tok : Token := { type := .EOF, lexeme := "",
                       start := s.cursor + 1, stop := s.cursor + 1, line := s.line }
  (tok, { s with lastToken := tok })

/-- code.substring(start, end) on the char-code list. -/
def substring (code : List CharCode) (start stop : Int) : String :=
  String.mk (((code.drop start.toNat).take (stop - start).toNat).map Char.ofNat)

/-- AviatorLexer.untilMeet: advance while peek is not 0 and not one of
chs.  Fuel-recursive; fuel is never exhausted when it is at least the
remaining input length, since each step advances the cursor. -/
def untilMeet (chs : List CharCode) : Nat → LexState → LexState
  | 0, s => s
  | fuel + 1, s =>
    if peekChar s != 0 && !(chs.contains (peekChar s)) then
      untilMeet chs fuel (nextChar s)
    else s

/-- AviatorLexer.untilNonMatch. -/
def untilNonMatch (matcher : CharCode → Bool) : Nat → LexState → LexState
  | 0, s => s
  | fuel + 1, s =>
    if peekChar s != 0 && matcher (peekChar s) then
      untilNonMatch matcher fuel (nextChar s)
    else s

/-- Generous fuel bound for the scanning loops of one next() call. -/
def scanFuel (s : LexState) : Nat := s.code.length + 2

def isCommentStart (s : LexState) : Bool :=
  currentChar s == 35 && peekChar s == 35

def isNumberLiteralStart (s : LexState) : Bool :=
  LexerUtil.isDigit (currentChar s)
  || (currentChar s == 46 && LexerUtil.isDigit (peekChar s))
  || (currentChar s == 46 && (peekChar s == 101 || peekChar s == 69))

/-- AviatorLexer.numberToken. -/
def numberToken (s : LexState) (start stop : Int) : Token × LexState :=
  let tok : Token := { type := .NUMBER, lexeme := substring s.code start stop,
                       start := start, stop := stop, line := s.line }
  (tok, { s with lastToken := tok })

/-- AviatorLexer.identifierToken: keywords are resolved through
KEYWORDS_MAP. -/
def identifierToken (s : LexState) (start stop : Int) : Token × LexState :=
  let name := substring s.code start stop
  let t := (keywordsMap.lookup name).getD .IDENTIFIER
  let tok : Token := { type := t, lexeme := name, start := start, stop := stop, line := s.line }
  (tok, { s with lastToken := tok })

/-- AviatorLexer.regexToken. -/
def regexToken (s : LexState) (start : Int) : Token × LexState :=
  let tok : Token := { type := .REGEX, lexeme := substring s.code start (s.cursor + 1),
                       start := start, stop := s.cursor + 1, line := s.line }
  (tok, { s with lastToken := tok })

/-- AviatorLexer.stringToken. -/
def stringToken (s : LexState) (start stop : Int) (str : String) : Token × LexState :=
  let tok : Token := { type := .STRING, lexeme := str, start := start, stop := stop, line := s.line }
  (tok, { s with lastToken := tok })

/-- AviatorLexer.parseNextAnd. -/
def parseNextAnd (s : LexState) : Token × LexState :=
  if peekChar s == 38 then mkToken (nextChar s) .LOGIC_AND "&&"
  else mkToken s .BIT_AND "&"

/-- AviatorLexer.parseNextOr. -/
def parseNextOr (s : LexState) : Token × LexState :=
  if peekChar s == 124 then mkToken (nextChar s) .LOGIC_OR "||"
  else mkToken s .BIT_OR "|"

/-- AviatorLexer.parseNextLessOrBitShiftLeft.  The source first builds
the single-char token (recording it as lastToken), then may override it
with the two-char token; the state threading below mirrors that. -/
def parseNextLess (s : LexState) : Token × LexState :=
  let (lt, s) := mkToken s .LESS_THAN "<"
  let s := untilNonMatch LexerUtil.isWhiteSpace (scanFuel s) s
  if peekChar s == 61 then mkToken (nextChar s) .LESS_THAN_EQUAL "<="
  else if peekChar s == 60 then mkToken (nextChar s) .SIGNED_BIT_SHIFT_LEFT "<<"
  else (lt, s)

/-- AviatorLexer.parseNextGreaterOrBitShiftRight. -/
def parseNextGreater (s : LexState) : Token × LexState :=
  let (gt, s) := mkToken s .GREATER_THAN ">"
  let s := untilNonMatch LexerUtil.isWhiteSpace (scanFuel s) s
  if peekChar s == 61 then mkToken (nextChar s) .GREATER_THAN_EQUAL ">="
  else if peekChar s == 62 then
    let (shr, s) := mkToken (nextChar s) .SIGNED_BIT_SHIFT_RIGHT ">>"
    let s := untilNonMatch LexerUtil.isWhiteSpace (scanFuel s) s
    if peekChar s == 62 then mkToken (nextChar s) .UNSIGNED_BIT_SHIFT_RIGHT ">>>"
    else (shr, s)
  else (gt, s)

/-- AviatorLexer.parseNextEqualLikeOrAssign. -/
def parseNextEqual (s : LexState) : Token × LexState :=
  let (assign, s) := mkToken s .ASSIGN "="
  let s := untilNonMatch LexerUtil.isWhiteSpace (scanFuel s) s
  if peekChar s == 61 then mkToken (nextChar s) .EQUAL "=="
  else if peekChar s == 126 then mkToken (nextChar s) .LIKE "=~"
  else (assign, s)

/-- AviatorLexer.parseNextNotOrNotEqual. -/
def parseNextNot (s : LexState) : Token × LexState :=
  let (no, s) := mkToken s .LOGIC_NOT "!"
  let s := untilNonMatch LexerUtil.isWhiteSpace (scanFuel s) s
  if peekChar s == 61 then mkToken (nextChar s) .NOT_EQUAL "!="
  else (no, s)

/-- AviatorLexer.tokenSubtractOrArrow. -/
def parseSubtractOrArrow (s : LexState) : Token × LexState :=
  let (sub, s) := mkToken s .SUBTRACT "-"
  let s := untilNonMatch LexerUtil.isWhiteSpace (scanFuel s) s
  if peekChar s == 62 then mkToken (nextChar s) .ARROW "->"
  else (sub, s)

/-- AviatorLexer.parseMultiplyOrPower. -/
def parseMultiplyOrPower (s : LexState) : Token × LexState :=
  let (mul, s) := mkToken s .MULTIPLY "*"
  let s := untilNonMatch LexerUtil.isWhiteSpace (scanFuel s) s
  if peekChar s == 42 then mkToken (nextChar s) .POW "**"
  else (mul, s)

/-- AviatorLexer.parseNextNumberLiteral. -/
def parseNextNumberLiteral (s : LexState) : Token × LexState :=
  let start := s.cursor
  if currentChar s == 48 && (peekChar s == 120 || peekChar s == 88) then
    let s := nextChar (nextChar s)
    let s := untilNonMatch LexerUtil.isHexDigit (scanFuel s) s
    numberToken s start (s.cursor + 1)
  else
    let s := untilNonMatch LexerUtil.isDigit (scanFuel s) s
    let s :=
      if peekChar s == 46 then
        untilNonMatch LexerUtil.isDigit (scanFuel s) (nextChar s)
      else s
    let s :=
      if peekChar s == 101 || peekChar s == 69 then
        let s := nextChar (nextChar s)
        let s := if currentChar s == 45 || currentChar s == 43 then nextChar s else s
        untilNonMatch LexerUtil.isDigit (scanFuel s) s
      else s
    let s := if peekChar s == 78 || peekChar s == 77 then nextChar s else s
    numberToken s start (s.cursor + 1)

/-- AviatorLexer.parseNextIdentifier.  The two object-access assertions
of the source (assertObjectAccessValid / assertObjectAccessEnd) test
whether currentChar is a dot; since the scan loop only ever stands on
identifier-rest characters, both conditions are translated faithfully
below and are never true. -/
def parseNextIdentifier (s : LexState) : Except String (Token × LexState) :=
  let start := s.cursor
  let rec scan : Nat → LexState → Except String LexState
    | 0, s => .ok s
    | fuel + 1, s =>
      if LexerUtil.isIdentifierRest (peekChar s) then
        -- assertObjectAccessValid
        if currentChar s == 46 && LexerUtil.isNotIdentifierStart (peekChar s) then
          .error ("Invalid object access syntax: expect alpha but got <"
                  ++ LexerUtil.toPrintable (peekChar s) ++ ">")
        else scan fuel (nextChar s)
      else .ok s
  match scan (scanFuel s) s with
  | .error e => .error e
  | .ok s =>
    -- assertObjectAccessEnd
    if currentChar s == 46 then
      .error ("Invalid object access syntax: expect alpha but got <"
              ++ LexerUtil.toPrintable (peekChar s) ++ ">")
    else .ok (identifierToken s start (s.cursor + 1))

/-- AviatorLexer.parseNextRegexLiteral: skips the opening slash, scans to
the next '/', newline, carriage return or end of input (note: a '/'
preceded by a backslash also terminates the scan), then asserts the
terminator is '/'. -/
def parseNextRegexLiteral (s : LexState) : Except String (Token × LexState) :=
  let start := s.cursor
  let s := nextChar s
  let s := untilMeet [47, 10, 13] (scanFuel s) s
  let s :=
    if peekChar s != 0 && LexerUtil.isNotEOL (peekChar s) then nextChar s else s
  -- assertRegexEnd
  if currentChar s != 47 then
    .error ("Invalid regex syntax: expect </> but got <"
            ++ LexerUtil.toPrintable (currentChar s) ++ "> at "
            ++ toString s.line)
  else .ok (regexToken s start)

/-- AviatorLexer.parseNextStringLiteral.  The content accumulation of
the source (building the quoted lexeme with escape pairs preserved) is
reproduced. -/
def parseNextStringLiteral (s : LexState) : Except String (Token × LexState) :=
  let quote := currentChar s
  let start := s.cursor
  let rec scan : Nat → LexState → String → LexState × String
    | 0, s, acc => (s, acc)
    | fuel + 1, s, acc =>
      if peekChar s != quote && LexerUtil.isNotEOL (peekChar s) && peekChar s != 0 then
        let s := nextChar s
        if currentChar s == 92 then
          let s := nextChar s
          scan fuel s (acc ++ "\\" ++ String.mk [Char.ofNat (currentChar s)])
        else
          scan fuel s (acc ++ String.mk [Char.ofNat (currentChar s)])
      else (s, acc)
  let (s, content) := scan (scanFuel s) s ""
  let s := nextChar s
  -- assertStringEnd
  if currentChar s != quote then
    .error ("Invalid string syntax: expect <" ++ String.mk [Char.ofNat quote]
            ++ "> but got <" ++ LexerUtil.toPrintable (currentChar s) ++ ">")
  else
    .ok (stringToken s start (s.cursor + 1)
          (String.mk [Char.ofNat quote] ++ content ++ String.mk [Char.ofNat quote]))

/-- AviatorLexer.next: the scanning loop.  Each iteration consumes at
least one character, so fuel (code.length + 2) never runs out. -/
def nextAux : Nat → LexState → Except String (Token × LexState)
  | 0, _ => .error "lexer: out of fuel"
  | fuel + 1, s =>
    if hasNext s then
      let s := nextChar s
      let ch := currentChar s
      if ch == 10 then nextAux fuel (newLine s)
      else if isCommentStart s then
        nextAux fuel (untilMeet [10] (scanFuel s) s)
      else if isNumberLiteralStart s && expect s .NUMBER then
        .ok (parseNextNumberLiteral s)
      else if LexerUtil.isIdentifierStart ch then
        parseNextIdentifier s
      else if LexerUtil.isStringLiteralStart ch then
        parseNextStringLiteral s
      else if ch == 38 then .ok (parseNextAnd s)
      else if ch == 124 then .ok (parseNextOr s)
      else if ch == 60 then .ok (parseNextLess s)
      else if ch == 62 then .ok (parseNextGreater s)
      else if ch == 61 then .ok (parseNextEqual s)
      else if ch == 33 then .ok (parseNextNot s)
      else if ch == 43 then .ok (mkToken s .ADD "+")
      else if ch == 45 then .ok (parseSubtractOrArrow s)
      else if ch == 42 then .ok (parseMultiplyOrPower s)
      else if ch == 47 && expect s .DIVIDE then .ok (mkToken s .DIVIDE "/")
      else if ch == 47 && expect s .REGEX then parseNextRegexLiteral s
      else if ch == 37 then .ok (mkToken s .MOD "%")
      else if ch == 94 then .ok (mkToken s .BIT_XOR "^")
      else if ch == 126 then .ok (mkToken s .BIT_NOT "~")
      else if ch == 40 then .ok (mkToken s .LEFT_PAREN "(")
      else if ch == 41 then .ok (mkToken s .RIGHT_PAREN ")")
      else if ch == 91 then .ok (mkToken s .LEFT_BRACKET "[")
      else if ch == 93 then .ok (mkToken s .RIGHT_BRACKET "]")
      else if ch == 123 then .ok (mkToken s .LEFT_BRACE "\x7b")
      else if ch == 125 then .ok (mkToken s .RIGHT_BRACE "\x7d")
      else if ch == 46 then .ok (mkToken s .DOT ".")
      else if ch == 63 then .ok (mkToken s .CONDITIONAL "?")
      else if ch == 58 then .ok (mkToken s .COLON ":")
      else if ch == 44 then .ok (mkToken s .COMMA ",")
      else if ch == 59 then .ok (mkToken s .SEMICOLON ";")
      else nextAux fuel s
    else .ok (mkEofToken s)

/-- One next() call with enough fuel for the whole input. -/
def next (s : LexState) : Except String (Token × LexState) :=
  nextAux (s.code.length + 2) s

/-- Run the lexer to completion, returning all tokens including the
final EOF token. -/
def lexAllAux : Nat → LexState → Except String (List Token)
  | 0, _ => .error "lexer: out of fuel"
  | fuel + 1, s =>
    match next s with
    | .error e => .error e
    | .ok (tok, s') =>
      if tok.type = .EOF then .ok [tok]
      else
        match lexAllAux fuel s' with
        | .error e => .error e
        | .ok rest => .ok (tok :: rest)

def lexAll (code : String) : Except String (List Token) :=
  let s := initState code
  lexAllAux (s.code.length + 2) s

end Lexer

/-! ## AST (src/ast.ts) -/

/-- The expression tree: Leaf, Node (1..3 operands), FunctionCall and
LambdaFunction from src/ast.ts.  Node keeps its operands as a list, as
the source does. -/
inductive Expr where
  | leaf (token : Token)
  | node (operator : Token) (operands : List Expr)
  | call (func : Expr) (args : List Expr)
  | lambda (parameters : List Token) (body : Expr)

namespace Expr

/-- Node.getChildren / the children traversed by the executor factory. -/
def getChildren : Expr → List Expr
  | .leaf _ => []
  | .node _ ops => ops
  | .call f args => f :: args
  | .lambda _ b => [b]

mutual

/-- Expr.toString from src/ast.ts (used by ValueExecution to hand the
textual form of a subtree to the runtime). -/
def toText : Expr → String
  | .leaf t => t.lexeme
  | .node op ops =>
    match toTextList ops with
    | [a] => "(" ++ op.lexeme ++ a ++ ")"
    | [a, b] =>
      if op.type = .DOT then a ++ op.lexeme ++ b
      else if op.type = .LEFT_BRACKET then a ++ "[" ++ b ++ "]"
      else "(" ++ a ++ " " ++ op.lexeme ++ " " ++ b ++ ")"
    | [a, b, c] => "(" ++ a ++ " " ++ op.lexeme ++ " " ++ b ++ ":" ++ c ++ ")"
    | texts => "(" ++ op.lexeme ++ " " ++ String.intercalate " " texts ++ ")"
  | .call f args =>
    toText f ++ "(" ++ String.intercalate ", " (toTextList args) ++ ")"
  | .lambda ps b =>
    "lambda (" ++ String.intercalate ", " (ps.map (·.lexeme)) ++ ") -> " ++ toText b ++ " end"

def toTextList : List Expr → List String
  | [] => []
  | e :: es => toText e :: toTextList es

end

end Expr

/-! ## Statements (src/statement.ts) -/

/-- The statement tree.  Note: the ExprStmt class of src/statement.ts
has a single `expr` field; the second (hasSemi) argument that the script
parser passes to the constructor is silently dropped by JavaScript, so
it is not represented here. -/
inductive Stmt where
  | exprStmt (expr : Expr)
  | letStmt (name : Token) (initializer : Expr)
  | ifStmt (condition : Expr) (thenBranch : List Stmt)
      (elsifBranches : List (Expr × List Stmt)) (elseBranch : Option (List Stmt))
  | whileStmt (condition : Expr) (body : List Stmt)
  | forStmt (indexVar : Option Token) (itemVar : Token) (iterable : Expr) (body : List Stmt)
  | fnStmt (name : Token) (params : List Token) (body : List Stmt)
  | returnStmt (value : Option Expr)
  | breakStmt
  | continueStmt
  | blockStmt (statements : List Stmt)
  | tryStmt (tryBlock : List Stmt) (catchVar : Option Token)
      (catchBlock : Option (List Stmt)) (finallyBlock : Option (List Stmt))
  | throwStmt (value : Expr)

/-! ## Binding powers (src/binding_power.ts) -/

namespace BindingPower

/-- INFIX_OPERATOR_LEFT_BINDING_POWER; none means the token is not an
infix operator. -/
def infixLeftMap : TokenType → Option Nat
  | .ASSIGN => some 6
  | .CONDITIONAL => some 2
  | .LOGIC_OR => some 3
  | .LOGIC_AND => some 5
  | .BIT_OR => some 6
  | .BIT_XOR => some 7
  | .BIT_AND => some 8
  | .LIKE => some 7
  | .EQUAL => some 9
  | .NOT_EQUAL => some 9
  | .GREATER_THAN => some 11
  | .GREATER_THAN_EQUAL => some 11
  | .LESS_THAN => some 11
  | .LESS_THAN_EQUAL => some 11
  | .SIGNED_BIT_SHIFT_LEFT => some 12
  | .SIGNED_BIT_SHIFT_RIGHT => some 12
  | .UNSIGNED_BIT_SHIFT_RIGHT => some 12
  | .ADD => some 13
  | .SUBTRACT => some 13
  | .MOD => some 15
  | .MULTIPLY => some 17
  | .DIVIDE => some 17
  | .POW => some 18
  | .DOT => some 19
  | _ => none

/-- INFIX_OPERATOR_RIGHT_BINDING_POWER. -/
def infixRightMap : TokenType → Option Nat
  | .ASSIGN => some 0
  | .CONDITIONAL => some 1
  | .LOGIC_OR => some 4
  | .LOGIC_AND => some 6
  | .BIT_OR => some 7
  | .BIT_XOR => some 8
  | .BIT_AND => some 9
  | .LIKE => some 8
  | .EQUAL => some 10
  | .NOT_EQUAL => some 10
  | .GREATER_THAN => some 12
  | .GREATER_THAN_EQUAL => some 12
  | .LESS_THAN => some 12
  | .LESS_THAN_EQUAL => some 12
  | .SIGNED_BIT_SHIFT_LEFT => some 13
  | .SIGNED_BIT_SHIFT_RIGHT => some 13
  | .UNSIGNED_BIT_SHIFT_RIGHT => some 13
  | .ADD => some 14
  | .SUBTRACT => some 14
  | .MOD => some 16
  | .MULTIPLY => some 18
  | .DIVIDE => some 18
  | .POW => some 17
  | .DOT => some 20
  | _ => none

/-- PREFIX_OPERATOR_BINDING_POWER. -/
def prefixMap : TokenType → Option Nat
  | .SUBTRACT => some 19
  | .LOGIC_NOT => some 19
  | .BIT_NOT => some 19
  | _ => none

/-- POSTFIX_OPERATOR_BINDING_POWER. -/
def postfixMap : TokenType → Option Nat
  | .LEFT_PAREN => some 19
  | .LEFT_BRACKET => some 19
  | _ => none

def isInfix (t : Token) : Bool := (infixLeftMap t.type).isSome

def isPostfix (t : Token) : Bool := (postfixMap t.type).isSome

/-- BindingPower.infixLeft (the source's map get with non-null
assertion; only consulted after isInfix). -/
def infixLeft (t : Token) : Nat := (infixLeftMap t.type).getD 0

def infixRight (t : Token) : Nat := (infixRightMap t.type).getD 0

def prefixPower (t : Token) : Nat := (prefixMap t.type).getD 0

def postfixPower (t : Token) : Nat := (postfixMap t.type).getD 0

end BindingPower

/-! ## Parser state

Both parsers (the Pratt expression parser of src/parser.ts and the
script parser of src/script_parser.ts) hold a current token, a one-token
lookahead and a lexer.  The embedding pre-lexes the input into a token
list; pulling past the final EOF token (which the real lexer would answer
with a fresh EOF token) yields a default EOF token. -/

structure PState where
  token : Option Token
  lookahead : Option Token
  rest : List Token

def eofFallback : Token := { type := .EOF, lexeme := "", start := 0, stop := 0, line := 0 }

def pullToken : List Token → Token × List Token
  | [] => (eofFallback, [])
  | t :: ts => (t, ts)

namespace PState

/-- next/advance: shift the lookahead into the current slot and pull the
next token; returns the new current token (null before the first pull
completes, as in the source). -/
def next (s : PState) : Option Token × PState :=
  let (la, rest) := pullToken s.rest
  (s.lookahead, { token := s.lookahead, lookahead := some la, rest := rest })

/-- peek() with the source's non-null assertion; the parsers only call
it after at least one advance, when the lookahead is present. -/
def peekT (s : PState) : Token := s.lookahead.getD eofFallback

/-- Pratt.peekType: a null lookahead counts as EOF. -/
def peekType (s : PState) (t : TokenType) : Bool :=
  match s.lookahead with
  | none => t == .EOF
  | some tok => tok.type == t

def peekLeaf (s : PState) : Bool :=
  s.peekType .NUMBER || s.peekType .IDENTIFIER || s.peekType .STRING ||
  s.peekType .TRUE || s.peekType .FALSE || s.peekType .NIL || s.peekType .REGEX

def peekUnary (s : PState) : Bool :=
  s.peekType .SUBTRACT || s.peekType .LOGIC_NOT || s.peekType .BIT_NOT

def tokenIs (s : PState) (t : TokenType) : Bool :=
  match s.token with
  | none => false
  | some tok => tok.type == t

def initial (toks : List Token) : PState :=
  { token := none, lookahead := none, rest := toks }

end PState

/-! ## Pratt expression parser (src/parser.ts, external-provider version) -/

namespace Pratt

def getToken (s : PState) : Except String Token :=
  match s.token with
  | none => .error "Token is null. Parser not initialized?"
  | some t => .ok t

def eat (t : TokenType) (s : PState) : Except String PState :=
  let (_, s) := s.next
  if s.tokenIs t then .ok s
  else .error ("Expect token but got another")

mutual

def expr : Nat → Nat → PState → Except String (Expr × PState)
  | 0, _, _ => .error "parser: out of fuel"
  | fuel + 1, ubp, s => do
    let (left, s) ← primary fuel s
    exprLoop fuel ubp left s

/-- The while(true) lookahead loop inside Pratt.expr. -/
def exprLoop : Nat → Nat → Expr → PState → Except String (Expr × PState)
  | 0, _, _, _ => .error "parser: out of fuel"
  | fuel + 1, ubp, left, s =>
    if s.peekType .EOF then .ok (left, s)
    else
      let op := s.peekT
      if BindingPower.isInfix op then
        if BindingPower.infixLeft op < ubp then .ok (left, s)
        else do
          let (left, s) ← infixExpr fuel left op s
          exprLoop fuel ubp left s
      else if BindingPower.isPostfix op then
        if BindingPower.postfixPower op < ubp then .ok (left, s)
        else do
          let (left, s) ← postfixExpr fuel left op s
          exprLoop fuel ubp left s
      else .ok (left, s)

def primary : Nat → PState → Except String (Expr × PState)
  | 0, _ => .error "parser: out of fuel"
  | fuel + 1, s =>
    if s.peekType .LEFT_PAREN then subExpr fuel s
    else if s.peekLeaf then
      let (t, s) := s.next
      match t with
      | some tok => .ok (.leaf tok, s)
      | none => .error "Token is null. Parser not initialized?"
    else if s.peekUnary then prefixExpr fuel s
    else if s.peekType .LAMBDA then lambdaExpr fuel s
    else .error "Unexpected primary token"

def prefixExpr : Nat → PState → Except String (Expr × PState)
  | 0, _ => .error "parser: out of fuel"
  | fuel + 1, s => do
    let (_, s) := s.next
    let op ← getToken s
    let (right, s) ← expr fuel (BindingPower.prefixPower op) s
    .ok (.node op [right], s)

def infixExpr : Nat → Expr → Token → PState → Except String (Expr × PState)
  | 0, _, _, _ => .error "parser: out of fuel"
  | fuel + 1, left, op, s => do
    let (_, s) := s.next
    if s.tokenIs .CONDITIONAL then conditional fuel left op s
    else do
      let (right, s) ← expr fuel (BindingPower.infixRight op) s
      .ok (.node op [left, right], s)

def postfixExpr : Nat → Expr → Token → PState → Except String (Expr × PState)
  | 0, _, _, _ => .error "parser: out of fuel"
  | fuel + 1, left, op, s => do
    let (_, s) := s.next
    let (left, s) ←
      if s.tokenIs .LEFT_BRACKET then objectAccess fuel left op s
      else .ok (left, s)
    if s.tokenIs .LEFT_PAREN then functionCall fuel left s
    else .ok (left, s)

def subExpr : Nat → PState → Except String (Expr × PState)
  | 0, _ => .error "parser: out of fuel"
  | fuel + 1, s => do
    let s ← eat .LEFT_PAREN s
    let (e, s) ← expr fuel 0 s
    let s ← eat .RIGHT_PAREN s
    .ok (e, s)

/-- Pratt.lambda.  Note: this version of the parameter loop starts with
the current token still on the open paren, so it cannot accept an empty
parameter list (the script parser's own copy can). -/
def lambdaExpr : Nat → PState → Except String (Expr × PState)
  | 0, _ => .error "parser: out of fuel"
  | fuel + 1, s => do
    let s ← eat .LAMBDA s
    let s ← eat .LEFT_PAREN s
    let (params, s) ← lambdaParams fuel [] s
    let s ← eat .RIGHT_PAREN s
    let s ← eat .ARROW s
    let (body, s) ← expr fuel 0 s
    let s ← eat .END s
    .ok (.lambda params body, s)

def lambdaParams : Nat → List Token → PState → Except String (List Token × PState)
  | 0, _, _ => .error "parser: out of fuel"
  | fuel + 1, acc, s =>
    if s.tokenIs .RIGHT_PAREN then .ok (acc, s)
    else
      let (t, s) := s.next
      match t with
      | none => .error "Token is null. Parser not initialized?"
      | some tok =>
        if s.peekType .RIGHT_PAREN then .ok (acc ++ [tok], s)
        else do
          let s ← eat .COMMA s
          lambdaParams fuel (acc ++ [tok]) s

def conditional : Nat → Expr → Token → PState → Except String (Expr × PState)
  | 0, _, _, _ => .error "parser: out of fuel"
  | fuel + 1, left, op, s => do
    let (thenE, s) ← expr fuel 0 s
    let s ← eat .COLON s
    let (elseE, s) ← expr fuel (BindingPower.infixRight op) s
    .ok (.node op [left, thenE, elseE], s)

def objectAccess : Nat → Expr → Token → PState → Except String (Expr × PState)
  | 0, _, _, _ => .error "parser: out of fuel"
  | fuel + 1, left, op, s => do
    let (sub, s) ← expr fuel 0 s
    let s ← eat .RIGHT_BRACKET s
    .ok (.node op [left, sub], s)

def functionCall : Nat → Expr → PState → Except String (Expr × PState)
  | 0, _, _ => .error "parser: out of fuel"
  | fuel + 1, left, s =>
    if s.peekType .RIGHT_PAREN then do
      let s ← eat .RIGHT_PAREN s
      .ok (.call left [], s)
    else do
      let (args, s) ← callArgs fuel [] s
      let s ← eat .RIGHT_PAREN s
      .ok (.call left args, s)

def callArgs : Nat → List Expr → PState → Except String (List Expr × PState)
  | 0, _, _ => .error "parser: out of fuel"
  | fuel + 1, acc, s => do
    let (a, s) ← expr fuel 0 s
    if s.peekType .RIGHT_PAREN then .ok (acc ++ [a], s)
    else do
      let s ← eat .COMMA s
      callArgs fuel (acc ++ [a]) s

end

/-- Fuel that is ample for any token list this file parses. -/
def parseFuel (toks : List Token) : Nat := (toks.length + 2) * 32

/-- Pratt.parse over a pre-lexed token list. -/
def parseTokens (toks : List Token) : Except String Expr := do
  let (_, s) := (PState.initial toks).next
  let (e, _) ← expr (parseFuel toks) 0 s
  .ok e

/-- Pratt.parse(code). -/
def parse (code : String) : Except String Expr := do
  let toks ← Lexer.lexAll code
  parseTokens toks

end Pratt

/-! ## Script parser (src/script_parser.ts) -/

/-- ParseError from src/token.ts: message plus the offending token (the
token is absent only for the internal "Token not initialized" error). -/
structure ParseErr where
  message : String
  token : Option Token

namespace ScriptParser

def mkErr (msg : String) (tok : Token) : ParseErr := { message := msg, token := some tok }

def current (s : PState) : Except ParseErr Token :=
  match s.token with
  | none => .error { message := "Token not initialized", token := none }
  | some t => .ok t

def isAtEnd (s : PState) : Bool := s.peekT.type == .EOF

def checkToken (s : PState) (t : TokenType) : Bool :=
  if isAtEnd s then false else s.peekT.type == t

/-- matchToken: consume the lookahead if it has the given type. -/
def matchToken (s : PState) (t : TokenType) : Bool × PState :=
  if checkToken s t then (true, (s.next).2) else (false, s)

def eatToken (t : TokenType) (s : PState) : Except ParseErr PState := do
  let (_, s) := s.next
  if s.tokenIs t then .ok s
  else
    let tok ← current s
    .error (mkErr ("Expect token but got: " ++ tok.lexeme) tok)

def consumeToken (t : TokenType) (msg : String) (s : PState) : Except ParseErr (Token × PState) :=
  if checkToken s t then
    let (_, s') := s.next
    match s'.token with
    | some tok => .ok (tok, s')
    | none => .error { message := "Token not initialized", token := none }
  else
    .error (mkErr (msg ++ ". Got: " ++ s.peekT.lexeme) s.peekT)

def consumeSemicolon (s : PState) : PState :=
  if checkToken s .SEMICOLON then (s.next).2 else s

/-! The expression-parsing core of ScriptParser (its own copy of the
Pratt algorithm, stopping additionally at semicolons and right
braces). -/

mutual

def expr : Nat → Nat → PState → Except ParseErr (Expr × PState)
  | 0, _, _ => .error { message := "parser: out of fuel", token := none }
  | fuel + 1, ubp, s => do
    let (left, s) ← primary fuel s
    exprLoop fuel ubp left s

def exprLoop : Nat → Nat → Expr → PState → Except ParseErr (Expr × PState)
  | 0, _, _, _ => .error { message := "parser: out of fuel", token := none }
  | fuel + 1, ubp, left, s =>
    if s.peekType .EOF || s.peekType .SEMICOLON || s.peekType .RIGHT_BRACE then
      .ok (left, s)
    else
      let op := s.peekT
      if BindingPower.isInfix op then
        if BindingPower.infixLeft op < ubp then .ok (left, s)
        else do
          let (left, s) ← infixExpr fuel left op s
          exprLoop fuel ubp left s
      else if BindingPower.isPostfix op then
        if BindingPower.postfixPower op < ubp then .ok (left, s)
        else do
          let (left, s) ← postfixExpr fuel left op s
          exprLoop fuel ubp left s
      else .ok (left, s)

def primary : Nat → PState → Except ParseErr (Expr × PState)
  | 0, _ => .error { message := "parser: out of fuel", token := none }
  | fuel + 1, s =>
    if s.peekType .LEFT_PAREN then subExpr fuel s
    else if s.peekLeaf then
      let (t, s') := s.next
      match t with
      | some tok => .ok (.leaf tok, s')
      | none => .error { message := "Token not initialized", token := none }
    else if s.peekUnary then prefixExpr fuel s
    else if s.peekType .LAMBDA then lambdaExpr fuel s
    else .error (mkErr ("Unexpected primary token: " ++ s.peekT.lexeme) s.peekT)

def prefixExpr : Nat → PState → Except ParseErr (Expr × PState)
  | 0, _ => .error { message := "parser: out of fuel", token := none }
  | fuel + 1, s => do
    let (_, s) := s.next
    let op ← current s
    let (right, s) ← expr fuel (BindingPower.prefixPower op) s
    .ok (.node op [right], s)

def infixExpr : Nat → Expr → Token → PState → Except ParseErr (Expr × PState)
  | 0, _, _, _ => .error { message := "parser: out of fuel", token := none }
  | fuel + 1, left, op, s => do
    let (_, s) := s.next
    if s.tokenIs .CONDITIONAL then conditional fuel left op s
    else do
      let (right, s) ← expr fuel (BindingPower.infixRight op) s
      .ok (.node op [left, right], s)

def postfixExpr : Nat → Expr → Token → PState → Except ParseErr (Expr × PState)
  | 0, _, _, _ => .error { message := "parser: out of fuel", token := none }
  | fuel + 1, left, op, s => do
    let (_, s) := s.next
    let (left, s) ←
      if s.tokenIs .LEFT_BRACKET then objectAccess fuel left op s
      else .ok (left, s)
    if s.tokenIs .LEFT_PAREN then functionCall fuel left s
    else .ok (left, s)

def subExpr : Nat → PState → Except ParseErr (Expr × PState)
  | 0, _ => .error { message := "parser: out of fuel", token := none }
  | fuel + 1, s => do
    let s ← eatToken .LEFT_PAREN s
    let (e, s) ← expr fuel 0 s
    let s ← eatToken .RIGHT_PAREN s
    .ok (e, s)

/-- ScriptParser.lambda: unlike the Pratt version above, it checks for
an empty parameter list before entering the loop. -/
def lambdaExpr : Nat → PState → Except ParseErr (Expr × PState)
  | 0, _ => .error { message := "parser: out of fuel", token := none }
  | fuel + 1, s => do
    let s ← eatToken .LAMBDA s
    let s ← eatToken .LEFT_PAREN s
    let (params, s) ←
      if !(s.peekType .RIGHT_PAREN) then lambdaParams fuel [] s
      else .ok (([] : List Token), s)
    let s ← eatToken .RIGHT_PAREN s
    let s ← eatToken .ARROW s
    let (body, s) ← expr fuel 0 s
    let s ← eatToken .END s
    .ok (.lambda params body, s)

def lambdaParams : Nat → List Token → PState → Except ParseErr (List Token × PState)
  | 0, _, _ => .error { message := "parser: out of fuel", token := none }
  | fuel + 1, acc, s => do
    let (t, s) := s.next
    match t with
    | none => .error { message := "Token not initialized", token := none }
    | some tok =>
      if s.peekType .RIGHT_PAREN then .ok (acc ++ [tok], s)
      else do
        let s ← eatToken .COMMA s
        lambdaParams fuel (acc ++ [tok]) s

def conditional : Nat → Expr → Token → PState → Except ParseErr (Expr × PState)
  | 0, _, _, _ => .error { message := "parser: out of fuel", token := none }
  | fuel + 1, left, op, s => do
    let (thenE, s) ← expr fuel 0 s
    let s ← eatToken .COLON s
    let (elseE, s) ← expr fuel (BindingPower.infixRight op) s
    .ok (.node op [left, thenE, elseE], s)

def objectAccess : Nat → Expr → Token → PState → Except ParseErr (Expr × PState)
  | 0, _, _, _ => .error { message := "parser: out of fuel", token := none }
  | fuel + 1, left, op, s => do
    let (sub, s) ← expr fuel 0 s
    let s ← eatToken .RIGHT_BRACKET s
    .ok (.node op [left, sub], s)

def functionCall : Nat → Expr → PState → Except ParseErr (Expr × PState)
  | 0, _, _ => .error { message := "parser: out of fuel", token := none }
  | fuel + 1, left, s =>
    if s.peekType .RIGHT_PAREN then do
      let s ← eatToken .RIGHT_PAREN s
      .ok (.call left [], s)
    else do
      let (args, s) ← callArgs fuel [] s
      let s ← eatToken .RIGHT_PAREN s
      .ok (.call left args, s)

def callArgs : Nat → List Expr → PState → Except ParseErr (List Expr × PState)
  | 0, _, _ => .error { message := "parser: out of fuel", token := none }
  | fuel + 1, acc, s => do
    let (a, s) ← expr fuel 0 s
    if s.peekType .RIGHT_PAREN then .ok (acc ++ [a], s)
    else do
      let s ← eatToken .COMMA s
      callArgs fuel (acc ++ [a]) s

end

def expression (fuel : Nat) (s : PState) : Except ParseErr (Expr × PState) :=
  expr fuel 0 s

/-! Statement parsing. -/

mutual

/-- The statement loop of ScriptParser.parse (skipping leading
semicolons before each statement). -/
def parseStmts : Nat → List Stmt → PState → Except ParseErr (List Stmt × PState)
  | 0, _, _ => .error { message := "parser: out of fuel", token := none }
  | fuel + 1, acc, s =>
    if isAtEnd s then .ok (acc, s)
    else
      let s := skipSemicolons fuel s
      if isAtEnd s then .ok (acc, s)
      else do
        let (st, s) ← statement fuel s
        parseStmts fuel (acc ++ [st]) s

def skipSemicolons : Nat → PState → PState
  | 0, s => s
  | fuel + 1, s =>
    let (m, s') := matchToken s .SEMICOLON
    if m then skipSemicolons fuel s' else s'

def statement : Nat → PState → Except ParseErr (Stmt × PState)
  | 0, _ => .error { message := "parser: out of fuel", token := none }
  | fuel + 1, s =>
    let (mLet, s') := matchToken s .LET
    if mLet then letStatement fuel s'
    else if checkToken s .IF then ifStatement fuel s
    else if checkToken s .WHILE then whileStatement fuel s
    else if checkToken s .FOR then forStatement fuel s
    else if checkToken s .FN then fnStatement fuel s
    else if checkToken s .TRY then tryStatement fuel s
    else
      let (mThrow, s') := matchToken s .THROW
      if mThrow then throwStatement fuel s'
      else
        let (mRet, s') := matchToken s .RETURN
        if mRet then returnStatement fuel s'
        else
          let (mBrk, s') := matchToken s .BREAK
          if mBrk then .ok (.breakStmt, consumeSemicolon s')
          else
            let (mCont, s') := matchToken s .CONTINUE
            if mCont then .ok (.continueStmt, consumeSemicolon s')
            else if checkToken s .LEFT_BRACE then do
              let (b, s) ← block fuel s
              .ok (.blockStmt b, s)
            else expressionStatement fuel s

def letStatement : Nat → PState → Except ParseErr (Stmt × PState)
  | 0, _ => .error { message := "parser: out of fuel", token := none }
  | fuel + 1, s => do
    let (name, s) ← consumeToken .IDENTIFIER "Expect variable name after let" s
    let (_, s) ← consumeToken .ASSIGN "Expect = after variable name" s
    let (init, s) ← expression fuel s
    let s := consumeSemicolon s
    .ok (.letStmt name init, s)

def ifStatement : Nat → PState → Except ParseErr (Stmt × PState)
  | 0, _ => .error { message := "parser: out of fuel", token := none }
  | fuel + 1, s => do
    let (_, s) := s.next
    let (_, s) := matchToken s .LEFT_PAREN
    let (cond, s) ← expression fuel s
    let (_, s) := matchToken s .RIGHT_PAREN
    let (thenB, s) ← block fuel s
    let (elsifs, s) ← elsifBranches fuel [] s
    let (mElse, s) := matchToken s .ELSE
    if mElse then do
      let (elseB, s) ← block fuel s
      .ok (.ifStmt cond thenB elsifs (some elseB), s)
    else .ok (.ifStmt cond thenB elsifs none, s)

def elsifBranches : Nat → List (Expr × List Stmt) → PState →
    Except ParseErr (List (Expr × List Stmt) × PState)
  | 0, _, _ => .error { message := "parser: out of fuel", token := none }
  | fuel + 1, acc, s =>
    let (m, s') := matchToken s .ELSE_IF
    if m then do
      let (_, s') := matchToken s' .LEFT_PAREN
      let (c, s') ← expression fuel s'
      let (_, s') := matchToken s' .RIGHT_PAREN
      let (b, s') ← block fuel s'
      elsifBranches fuel (acc ++ [(c, b)]) s'
    else .ok (acc, s')

def whileStatement : Nat → PState → Except ParseErr (Stmt × PState)
  | 0, _ => .error { message := "parser: out of fuel", token := none }
  | fuel + 1, s => do
    let (_, s) := s.next
    let (_, s) := matchToken s .LEFT_PAREN
    let (cond, s) ← expression fuel s
    let (_, s) := matchToken s .RIGHT_PAREN
    let (body, s) ← block fuel s
    .ok (.whileStmt cond body, s)

def forStatement : Nat → PState → Except ParseErr (Stmt × PState)
  | 0, _ => .error { message := "parser: out of fuel", token := none }
  | fuel + 1, s => do
    let (_, s) := s.next
    let (first, s) ← consumeToken .IDENTIFIER "Expect variable name in for loop" s
    let (mComma, s) := matchToken s .COMMA
    let (indexVar, itemVar, s) ←
      if mComma then do
        let (item, s) ← consumeToken .IDENTIFIER "Expect item variable after comma" s
        .ok (some first, item, s)
      else
        .ok ((none : Option Token), first, s)
    let (_, s) ← consumeToken .IN "Expect in keyword in for loop" s
    let (iter, s) ← expression fuel s
    let (body, s) ← block fuel s
    .ok (.forStmt indexVar itemVar iter body, s)

def fnStatement : Nat → PState → Except ParseErr (Stmt × PState)
  | 0, _ => .error { message := "parser: out of fuel", token := none }
  | fuel + 1, s => do
    let (_, s) := s.next
    let (name, s) ← consumeToken .IDENTIFIER "Expect function name" s
    let (_, s) ← consumeToken .LEFT_PAREN "Expect ( after function name" s
    let (params, s) ←
      if !(checkToken s .RIGHT_PAREN) then fnParams fuel [] s
      else .ok (([] : List Token), s)
    let (_, s) ← consumeToken .RIGHT_PAREN "Expect ) after parameters" s
    let (body, s) ← block fuel s
    .ok (.fnStmt name params body, s)

/-- The do/while parameter loop of fnStatement. -/
def fnParams : Nat → List Token → PState → Except ParseErr (List Token × PState)
  | 0, _, _ => .error { message := "parser: out of fuel", token := none }
  | fuel + 1, acc, s => do
    let (p, s) ← consumeToken .IDENTIFIER "Expect parameter name" s
    let (m, s) := matchToken s .COMMA
    if m then fnParams fuel (acc ++ [p]) s
    else .ok (acc ++ [p], s)

def tryStatement : Nat → PState → Except ParseErr (Stmt × PState)
  | 0, _ => .error { message := "parser: out of fuel", token := none }
  | fuel + 1, s => do
    let (_, s) := s.next
    let (tryB, s) ← block fuel s
    let (mCatch, s) := matchToken s .CATCH
    let (catchVar, catchB, s) ←
      if mCatch then do
        let (_, s) ← consumeToken .LEFT_PAREN "Expect ( after catch" s
        let (v, s) ← consumeToken .IDENTIFIER "Expect catch variable name" s
        let (_, s) ← consumeToken .RIGHT_PAREN "Expect ) after catch variable" s
        let (b, s) ← block fuel s
        .ok (some v, some b, s)
      else .ok ((none : Option Token), (none : Option (List Stmt)), s)
    let (mFin, s) := matchToken s .FINALLY
    if mFin then do
      let (f, s) ← block fuel s
      .ok (.tryStmt tryB catchVar catchB (some f), s)
    else .ok (.tryStmt tryB catchVar catchB none, s)

def returnStatement : Nat → PState → Except ParseErr (Stmt × PState)
  | 0, _ => .error { message := "parser: out of fuel", token := none }
  | fuel + 1, s =>
    if !(checkToken s .SEMICOLON) && !(checkToken s .RIGHT_BRACE) && !(isAtEnd s) then do
      let (v, s) ← expression fuel s
      .ok (.returnStmt (some v), consumeSemicolon s)
    else
      .ok (.returnStmt none, consumeSemicolon s)

def throwStatement : Nat → PState → Except ParseErr (Stmt × PState)
  | 0, _ => .error { message := "parser: out of fuel", token := none }
  | fuel + 1, s => do
    let (v, s) ← expression fuel s
    .ok (.throwStmt v, consumeSemicolon s)

/-- ScriptParser.expressionStatement.  The source computes hasSemi and
passes it to the ExprStmt constructor, which (having a single declared
parameter) discards it; the unused binding mirrors that. -/
def expressionStatement : Nat → PState → Except ParseErr (Stmt × PState)
  | 0, _ => .error { message := "parser: out of fuel", token := none }
  | fuel + 1, s => do
    let (e, s) ← expression fuel s
    let _hasSemi := checkToken s .SEMICOLON
    let s := consumeSemicolon s
    .ok (.exprStmt e, s)

def block : Nat → PState → Except ParseErr (List Stmt × PState)
  | 0, _ => .error { message := "parser: out of fuel", token := none }
  | fuel + 1, s => do
    let (_, s) ← consumeToken .LEFT_BRACE "Expect opening brace" s
    let (stmts, s) ← blockStmts fuel [] s
    let (_, s) ← consumeToken .RIGHT_BRACE "Expect closing brace" s
    .ok (stmts, s)

def blockStmts : Nat → List Stmt → PState → Except ParseErr (List Stmt × PState)
  | 0, _, _ => .error { message := "parser: out of fuel", token := none }
  | fuel + 1, acc, s =>
    if !(checkToken s .RIGHT_BRACE) && !(isAtEnd s) then
      let s := skipSemicolons fuel s
      if checkToken s .RIGHT_BRACE then .ok (acc, s)
      else do
        let (st, s) ← statement fuel s
        blockStmts fuel (acc ++ [st]) s
    else .ok (acc, s)

end

/-- ScriptParser.parse over a pre-lexed token list (the constructor's
initial advance included). -/
def parseTokens (toks : List Token) : Except ParseErr (List Stmt) := do
  let (_, s) := (PState.initial toks).next
  let (stmts, _) ← parseStmts (Pratt.parseFuel toks) [] s
  .ok stmts

/-- ScriptParser.parse(code); a lexer error is surfaced as a ParseErr
without a token. -/
def parse (code : String) : Except ParseErr (List Stmt) :=
  match Lexer.lexAll code with
  | .error e => .error { message := e, token := none }
  | .ok toks => parseTokens toks

end ScriptParser

/-! ## Runtime values and the interpreter (src/interpreter.ts, the
scope-chain version, together with src/statement.ts) -/

/-- String.endsWith over the underlying character lists (the lexemes
handled here are ASCII, where the two agree). -/
def strEndsWith (s t : String) : Bool :=
  List.isPrefixOf t.data.reverse s.data.reverse

/-- String.dropRight over the underlying character list. -/
def strDropRight (s : String) (n : Nat) : String :=
  String.mk (s.data.take (s.data.length - n))

/-- String.drop over the underlying character list. -/
def strDrop (s : String) (n : Nat) : String :=
  String.mk (s.data.drop n)

/-- ControlFlowSignal kinds. -/
inductive SigKind where
  | brk | cont | ret
  deriving DecidableEq, Repr

/-- The code part of a closure: an expression (lambda) or a statement
list (fn). -/
inductive FnBody where
  | exprB (e : Expr)
  | stmtsB (ss : List Stmt)

/-- Runtime values.  JS null and undefined are distinct; a closure
holds the heap index of its captured scope; a ControlFlowSignal is a
value, as in the source, where it flows through the same variables as
ordinary results. -/
inductive Value where
  | vnull
  | vundefined
  | vnum (n : Int)
  | vbigint (n : Int)
  | vbool (b : Bool)
  | vstr (s : String)
  | vregex (pattern : String) (flags : String)
  | vlist (xs : List Value)
  | vmapv (entries : List (Value × Value))
  | vclosure (params : List String) (body : FnBody) (scope : Nat)
  | signal (k : SigKind) (v : Value)

namespace Value

/-- JS truthiness: false, 0, 0n, "", null, undefined are falsy;
objects, functions and signals (which are objects) are truthy. -/
def truthy : Value → Bool
  | vnull => false
  | vundefined => false
  | vnum n => n != 0
  | vbigint n => n != 0
  | vbool b => b
  | vstr s => s != ""
  | vregex _ _ => true
  | vlist _ => true
  | vmapv _ => true
  | vclosure _ _ _ => true
  | signal _ _ => true

def isSignal : Value → Bool
  | signal _ _ => true
  | _ => false

/-- typeof v === 'object' (and not null). -/
def isObjectLike : Value → Bool
  | vlist _ => true
  | vmapv _ => true
  | vregex _ _ => true
  | _ => false

mutual

/-- JS String(value) for the value kinds this file needs. -/
def jsToString : Value → String
  | vnull => "null"
  | vundefined => "undefined"
  | vnum n => toString n
  | vbigint n => toString n
  | vbool b => if b then "true" else "false"
  | vstr s => s
  | vregex p f => "/" ++ p ++ "/" ++ f
  | vlist xs => String.intercalate "," (jsToStringList xs)
  | vmapv _ => "[object Map]"
  | vclosure _ _ _ => "[function]"
  | signal _ _ => "[object Object]"

def jsToStringList : List Value → List String
  | [] => []
  | v :: vs => jsToString v :: jsToStringList vs

end

end Value

/-- Decimal-digit integer lexeme decoding.  The source delegates to the
host's Number()/BigInt(); every script evaluated in this file uses only
plain decimal integer literals, and other lexemes decode to 0 here. -/
def parseIntLexeme (s : String) : Int :=
  if s.data ≠ [] && s.data.all (fun c => 48 ≤ c.toNat && c.toNat ≤ 57) then
    ((s.data.foldl (fun acc c => acc * 10 + (c.toNat - 48)) 0 : Nat) : Int)
  else 0

/-- One frame of the environment chain (interface Scope of the
interpreter): parent index into the heap and insertion-ordered
variables map. -/
structure Scope where
  parent : Option Nat
  vars : List (String × Value)

/-- The interpreter state: a heap of scopes (scopes are created by
withNewScope and kept alive as long as some closure references them,
as in JS) and the index of the current scope. -/
structure IState where
  scopes : List Scope
  current : Nat

namespace Interp

/-- Interpreter constructor: a single global scope holding the context
entries. -/
def new (ctx : List (String × Value)) : IState :=
  { scopes := [{ parent := none, vars := ctx }], current := 0 }

def getScope (s : IState) (i : Nat) : Scope := s.scopes.getD i { parent := none, vars := [] }

/-- Map.set on an insertion-ordered association list. -/
def setVar (vars : List (String × Value)) (x : String) (v : Value) : List (String × Value) :=
  if (vars.lookup x).isSome then
    vars.map (fun p => if p.1 = x then (x, v) else p)
  else vars ++ [(x, v)]

/-- Interpreter.define: bind in the scope at index i. -/
def defineIn (s : IState) (i : Nat) (x : String) (v : Value) : IState :=
  let sc := getScope s i
  { s with scopes := s.scopes.set i { sc with vars := setVar sc.vars x v } }

def define (s : IState) (x : String) (v : Value) : IState :=
  defineIn s s.current x v

/-- The scope-chain walk shared by resolveIdentifier and assign; fuel
(the heap size at the call sites) bounds the walk. -/
def resolveAux : Nat → List Scope → Nat → String → Option Value
  | 0, _, _, _ => none
  | fuel + 1, heap, i, x =>
    match heap.get? i with
    | none => none
    | some sc =>
      match sc.vars.lookup x with
      | some v => some v
      | none =>
        match sc.parent with
        | some p => resolveAux fuel heap p x
        | none => none

/-- Interpreter.resolveIdentifier: undefined when no frame binds x. -/
def resolveIdentifier (s : IState) (x : String) : Value :=
  (resolveAux s.scopes.length s.scopes s.current x).getD .vundefined

/-- The nearest scope in the chain from i that binds x (specification
helper mirroring the walk of assign). -/
def findBinderIdx : Nat → List Scope → Nat → String → Option Nat
  | 0, _, _, _ => none
  | fuel + 1, heap, i, x =>
    match heap.get? i with
    | none => none
    | some sc =>
      if (sc.vars.lookup x).isSome then some i
      else
        match sc.parent with
        | some p => findBinderIdx fuel heap p x
        | none => none

/-- The chain walk of Interpreter.assign: mutate the nearest binding if
one exists. -/
def assignAux : Nat → List Scope → Nat → String → Value → Option (List Scope)
  | 0, _, _, _, _ => none
  | fuel + 1, heap, i, x, v =>
    match heap.get? i with
    | none => none
    | some sc =>
      if (sc.vars.lookup x).isSome then
        some (heap.set i { sc with vars := setVar sc.vars x v })
      else
        match sc.parent with
        | some p => assignAux fuel heap p x v
        | none => none

/-- Interpreter.assign: mutate the nearest binding, else define in the
current scope (the source's comment calls this AviatorScript
behavior). -/
def assign (s : IState) (x : String) (v : Value) : IState :=
  match assignAux s.scopes.length s.scopes s.current x v with
  | some heap => { s with scopes := heap }
  | none => define s x v

/-- withNewScope: append a fresh child scope and make it current. -/
def pushScope (s : IState) (parent : Nat) (extra : List (String × Value)) : IState :=
  { scopes := s.scopes ++ [{ parent := some parent, vars := extra }],
    current := s.scopes.length }

/-- Interpreter.flattenName. -/
def flattenName : Expr → Option String
  | .leaf tok => if tok.type = .IDENTIFIER then some tok.lexeme else none
  | .node op ops =>
    if op.type = .DOT then
      match ops with
      | [l, r] =>
        match flattenName l with
        | some ln =>
          match r with
          | .leaf rt => if rt.type = .IDENTIFIER then some (ln ++ "." ++ rt.lexeme) else none
          | _ => none
        | none => none
      | _ => none
    else none
  | _ => none

/-- JS Map-key equality for the primitive keys this file uses. -/
def keyEq : Value → Value → Bool
  | .vstr a, .vstr b => a == b
  | .vnum a, .vnum b => a == b
  | .vbool a, .vbool b => a == b
  | .vnull, .vnull => true
  | .vundefined, .vundefined => true
  | _, _ => false

def lookupEntries (entries : List (Value × Value)) (k : Value) : Option Value :=
  (entries.find? (fun p => keyEq p.1 k)).map (·.2)

/-- Property read left[name] for DOT access (JS property access on the
object kinds this engine produces). -/
def dotGet (v : Value) (name : String) : Value :=
  match v with
  | .vmapv entries => (lookupEntries entries (.vstr name)).getD .vundefined
  | _ => .vundefined

/-- left[right] subscript read: array index on lists; out-of-range is
undefined.  (JS bracket access on a Map object reads object properties,
not entries, hence undefined here.) -/
def bracketGet (l r : Value) : Value :=
  match l, r with
  | .vlist xs, .vnum i =>
    if 0 ≤ i && i < (xs.length : Int) then xs.getD i.toNat .vundefined else .vundefined
  | _, _ => .vundefined

/-- The regex-literal split of evaluateLeaf: pattern between the first
slash and the last slash, flags after the last slash. -/
def splitRegexLexeme (lexeme : String) : String × String :=
  let chars := lexeme.data
  let lastSlash := (chars.length - 1) - ((chars.reverse.indexOf '/'))
  (String.mk ((chars.drop 1).take (lastSlash - 1)), String.mk (chars.drop (lastSlash + 1)))

/-- JS loose equality (==) on the operand kinds the verified scripts
compare; coercing combinations that no script exercises are reported as
unmodelled. -/
def jsLooseEq : Value → Value → Except String Bool
  | .vnull, .vnull => .ok true
  | .vnull, .vundefined => .ok true
  | .vundefined, .vnull => .ok true
  | .vundefined, .vundefined => .ok true
  | .vnull, _ => .ok false
  | _, .vnull => .ok false
  | .vundefined, _ => .ok false
  | _, .vundefined => .ok false
  | .vnum a, .vnum b => .ok (a == b)
  | .vbigint a, .vbigint b => .ok (a == b)
  | .vnum a, .vbigint b => .ok (a == b)
  | .vbigint a, .vnum b => .ok (a == b)
  | .vstr a, .vstr b => .ok (a == b)
  | .vbool a, .vbool b => .ok (a == b)
  | _, _ => .error "loose equality not modelled for these operand kinds"

/-- JS + (string concatenation if either side is a string, else
numeric/bigint addition). -/
def jsAdd : Value → Value → Except String Value
  | .vstr a, r => .ok (.vstr (a ++ Value.jsToString r))
  | l, .vstr b => .ok (.vstr (Value.jsToString l ++ b))
  | .vnum a, .vnum b => .ok (.vnum (a + b))
  | .vbigint a, .vbigint b => .ok (.vbigint (a + b))
  | _, _ => .error "addition not modelled for these operand kinds"

/-- JS binary arithmetic besides +.  Division is modelled only when
exact (the host divides in floating point; no verified script divides
inexactly); % is the JS remainder (sign of the dividend). -/
def jsArith (op : TokenType) : Value → Value → Except String Value
  | .vnum a, .vnum b =>
    match op with
    | .SUBTRACT => .ok (.vnum (a - b))
    | .MULTIPLY => .ok (.vnum (a * b))
    | .DIVIDE =>
      if b ≠ 0 && (a % b == 0) then .ok (.vnum (a / b))
      else .error "inexact division not modelled"
    | .MOD =>
      if b ≠ 0 then .ok (.vnum (Int.tmod a b)) else .error "modulo by zero not modelled"
    | .POW =>
      if 0 ≤ b then .ok (.vnum (a ^ b.toNat)) else .error "negative exponent not modelled"
    | _ => .error "unknown arithmetic operator"
  | .vbigint a, .vbigint b =>
    match op with
    | .SUBTRACT => .ok (.vbigint (a - b))
    | .MULTIPLY => .ok (.vbigint (a * b))
    | _ => .error "bigint arithmetic not modelled for this operator"
  | _, _ => .error "arithmetic not modelled for these operand kinds"

/-- JS numeric comparison operators on numbers. -/
def jsCompare (op : TokenType) : Value → Value → Except String Value
  | .vnum a, .vnum b =>
    match op with
    | .GREATER_THAN => .ok (.vbool (b < a))
    | .GREATER_THAN_EQUAL => .ok (.vbool (b ≤ a))
    | .LESS_THAN => .ok (.vbool (a < b))
    | .LESS_THAN_EQUAL => .ok (.vbool (a ≤ b))
    | _ => .error "unknown comparison operator"
  | _, _ => .error "comparison not modelled for these operand kinds"

/-- The loop head of the list branch of ForStmt.execute: bind the index
variable (when present), then the item variable, in the current
scope. -/
def bindLoopVars (iv : Option Token) (tv : Token) (s : IState) (idx : Nat) (item : Value) :
    IState :=
  let s := match iv with
    | some ivTok => define s ivTok.lexeme (.vnum idx)
    | none => s
  define s tv.lexeme item

/-- Interpretation requests: one constructor per method or internal
loop of Interpreter / the statement classes, so that the whole engine
is a single fuel-structural function that the kernel can evaluate. -/
inductive Req where
  | evalE (e : Expr)
  | evalArgs (es : List Expr) (acc : List Value)
  | execStmts (ss : List Stmt) (lastVal : Value)
  | execStmt (st : Stmt)
  | execBlock (ss : List Stmt) (extra : List (String × Value))
  | applyFn (fv : Value) (args : List Value)
  | whileLoop (cond : Expr) (body : List Stmt) (lastVal : Value)
  | forList (indexVar : Option Token) (itemVar : Token) (items : List Value)
      (body : List Stmt) (idx : Nat) (lastVal : Value)
  | forMap (indexVar : Option Token) (itemVar : Token) (entries : List (Value × Value))
      (body : List Stmt) (idx : Nat) (lastVal : Value)
  | elsifChain (branches : List (Expr × List Stmt)) (elseBranch : Option (List Stmt))

/-- The interpreter.  Returns the produced value (possibly a
control-flow signal) and the updated state; a thrown host error
abandons the state, as an Except error. -/
def interp : Nat → Req → IState → Except String (Value × IState)
  | 0, _, _ => .error "interpreter: out of fuel"
  | fuel + 1, req, s =>
    match req with
    | .evalE e =>
      match e with
      | .leaf tok =>
        match tok.type with
        | .NUMBER =>
          if strEndsWith tok.lexeme "N" then
            .ok (.vbigint (parseIntLexeme (strDropRight tok.lexeme 1)), s)
          else if strEndsWith tok.lexeme "M" then
            .ok (.vnum (parseIntLexeme (strDropRight tok.lexeme 1)), s)
          else .ok (.vnum (parseIntLexeme tok.lexeme), s)
        | .STRING =>
          -- processString: quotes stripped; escape handling and the
          -- #-brace interpolation (whose helper LexerUtil
          -- processStringContent is not part of the snapshot) are not
          -- modelled; no verified script evaluates a string literal.
          .ok (.vstr (strDropRight (strDrop tok.lexeme 1) 1), s)
        | .TRUE => .ok (.vbool true, s)
        | .FALSE => .ok (.vbool false, s)
        | .NIL => .ok (.vnull, s)
        | .REGEX =>
          let (p, f) := splitRegexLexeme tok.lexeme
          .ok (.vregex p f, s)
        | .IDENTIFIER => .ok (resolveIdentifier s tok.lexeme, s)
        | _ => .error ("Unexpected leaf token: " ++ tok.lexeme)
      | .node op ops =>
        match ops with
        | [a] => do
          let (val, s) ← interp fuel (.evalE a) s
          match op.type with
          | .SUBTRACT =>
            match val with
            | .vnum n => .ok (.vnum (-n), s)
            | .vbigint n => .ok (.vbigint (-n), s)
            | _ => .error "unary minus not modelled for this operand kind"
          | .LOGIC_NOT => .ok (.vbool (!val.truthy), s)
          | .BIT_NOT =>
            match val with
            | .vnum n => .ok (.vnum (-n - 1), s)
            | _ => .error "bitwise not modelled for this operand kind"
          | _ => .error ("Unknown unary operator: " ++ op.lexeme)
        | [a, b] =>
          if op.type = .ASSIGN then do
            -- handleAssignment: the right side is evaluated first.
            let (right, s) ← interp fuel (.evalE b) s
            match a with
            | .leaf lt =>
              if lt.type = .IDENTIFIER then .ok (right, assign s lt.lexeme right)
              else .error "Invalid assignment target"
            | .node lop _ =>
              if lop.type = .DOT || lop.type = .LEFT_BRACKET then
                .error "object field assignment not modelled"
              else .error "Invalid assignment target"
            | _ => .error "Invalid assignment target"
          else if op.type = .DOT then do
            let (left, s) ← interp fuel (.evalE a) s
            if left.truthy && left.isObjectLike then
              match b with
              | .leaf rt =>
                if rt.type = .IDENTIFIER then .ok (dotGet left rt.lexeme, s)
                else .ok (.vundefined, s)
              | _ => .ok (.vundefined, s)
            else .ok (.vundefined, s)
          else do
            let (left, s) ← interp fuel (.evalE a) s
            if op.type = .LOGIC_AND then
              if left.truthy then interp fuel (.evalE b) s else .ok (left, s)
            else if op.type = .LOGIC_OR then
              if left.truthy then .ok (left, s) else interp fuel (.evalE b) s
            else do
              let (right, s) ← interp fuel (.evalE b) s
              match op.type with
              | .ADD => do
                let v ← jsAdd left right
                .ok (v, s)
              | .SUBTRACT => do
                let v ← jsArith .SUBTRACT left right
                .ok (v, s)
              | .MULTIPLY => do
                let v ← jsArith .MULTIPLY left right
                .ok (v, s)
              | .DIVIDE => do
                let v ← jsArith .DIVIDE left right
                .ok (v, s)
              | .MOD => do
                let v ← jsArith .MOD left right
                .ok (v, s)
              | .POW => do
                let v ← jsArith .POW left right
                .ok (v, s)
              | .EQUAL => do
                let b ← jsLooseEq left right
                .ok (.vbool b, s)
              | .NOT_EQUAL => do
                let b ← jsLooseEq left right
                .ok (.vbool (!b), s)
              | .GREATER_THAN => do
                let v ← jsCompare .GREATER_THAN left right
                .ok (v, s)
              | .GREATER_THAN_EQUAL => do
                let v ← jsCompare .GREATER_THAN_EQUAL left right
                .ok (v, s)
              | .LESS_THAN => do
                let v ← jsCompare .LESS_THAN left right
                .ok (v, s)
              | .LESS_THAN_EQUAL => do
                let v ← jsCompare .LESS_THAN_EQUAL left right
                .ok (v, s)
              | .LIKE =>
                match right with
                | .vregex _ _ => .error "regex matching not modelled"
                | _ => .ok (.vbool false, s)
              | .LEFT_BRACKET =>
                if left.truthy && left.isObjectLike then .ok (bracketGet left right, s)
                else .ok (.vundefined, s)
              | _ => .error ("bitwise operators not modelled: " ++ op.lexeme)
        | [a, b, c] =>
          if op.type = .CONDITIONAL then do
            let (cond, s) ← interp fuel (.evalE a) s
            if cond.truthy then interp fuel (.evalE b) s
            else interp fuel (.evalE c) s
          else .error ("Unexpected node structure: " ++ op.lexeme)
        | _ => .error ("Unexpected node structure: " ++ op.lexeme)
      | .call f args => do
        -- evaluateFunctionCall: flattened-name lookup first; the
        -- resolved value is used only if truthy, else the callee is
        -- evaluated ordinarily.
        let func0 :=
          match flattenName f with
          | some n => resolveIdentifier s n
          | none => .vundefined
        let (func, s) ←
          if func0.truthy then .ok (func0, s)
          else interp fuel (.evalE f) s
        let (argv, s) ← interp fuel (.evalArgs args []) s
        match argv with
        | .vlist argVals =>
          match func with
          | .vclosure _ _ _ => interp fuel (.applyFn func argVals) s
          | _ => .error "Expression is not a function"
        | _ => .error "internal: evalArgs"
      | .lambda ps body =>
        -- evaluateLambda: capture the current scope.
        .ok (.vclosure (ps.map (·.lexeme)) (.exprB body) s.current, s)
    | .evalArgs es acc =>
      match es with
      | [] => .ok (.vlist acc, s)
      | e :: rest => do
        let (v, s) ← interp fuel (.evalE e) s
        interp fuel (.evalArgs rest (acc ++ [v])) s
    | .execStmts ss lastVal =>
      match ss with
      | [] => .ok (lastVal, s)
      | st :: rest => do
        let (v, s) ← interp fuel (.execStmt st) s
        if v.isSignal then .ok (v, s)
        else interp fuel (.execStmts rest v) s
    | .execStmt st =>
      match st with
      | .exprStmt e => interp fuel (.evalE e) s
      | .letStmt name init => do
        let (v, s) ← interp fuel (.evalE init) s
        .ok (.vnull, define s name.lexeme v)
      | .ifStmt cond thenB elsifs elseB => do
        let (c, s) ← interp fuel (.evalE cond) s
        if c.truthy then interp fuel (.execBlock thenB []) s
        else interp fuel (.elsifChain elsifs elseB) s
      | .whileStmt cond body => interp fuel (.whileLoop cond body .vnull) s
      | .forStmt iv tv iter body => do
        let (seqv, s) ← interp fuel (.evalE iter) s
        match seqv with
        | .vmapv entries => interp fuel (.forMap iv tv entries body 0 .vnull) s
        | .vlist items => interp fuel (.forList iv tv items body 0 .vnull) s
        | .vstr txt =>
          -- JS string iteration yields one-character strings.
          interp fuel (.forList iv tv (txt.data.map (fun c => .vstr (String.mk [c]))) body 0 .vnull) s
        | _ => .error "Expression is not iterable"
      | .fnStmt name params body =>
        -- FnStmt.execute via createFunction: capture the current scope.
        let fv : Value := .vclosure (params.map (·.lexeme)) (.stmtsB body) s.current
        .ok (.vnull, define s name.lexeme fv)
      | .returnStmt v? =>
        match v? with
        | some e => do
          let (v, s) ← interp fuel (.evalE e) s
          .ok (.signal .ret v, s)
        | none => .ok (.signal .ret .vnull, s)
      | .breakStmt => .ok (.signal .brk .vundefined, s)
      | .continueStmt => .ok (.signal .cont .vundefined, s)
      | .blockStmt ss => interp fuel (.execBlock ss []) s
      | .tryStmt tryB catchVar catchB finallyB =>
        -- Modelled from the spec: the TryStmt class is not part of the
        -- snapshot (only its parser and imports are); per the spec the
        -- catch block binds the caught value and the finally block runs
        -- on every exit path.  A host error discards interim state.
        let runFinally : IState → Except String (Value × IState) := fun st =>
          match finallyB with
          | some fb => interp fuel (.execBlock fb []) st
          | none => .ok (.vnull, st)
        match interp fuel (.execBlock tryB []) s with
        | .ok (v, s') => do
          let (_, s'') ← runFinally s'
          .ok (v, s'')
        | .error e =>
          match catchB with
          | some cb => do
            let extra := match catchVar with
              | some cv => [(cv.lexeme, Value.vstr e)]
              | none => []
            let (v, s') ← interp fuel (.execBlock cb extra) s
            let (_, s'') ← runFinally s'
            .ok (v, s'')
          | none =>
            match runFinally s with
            | .ok _ => .error e
            | .error e' => .error e'
      | .throwStmt e => do
        -- Modelled from the spec: ThrowStmt surfaces the value as a
        -- host-level exception.
        let (v, _) ← interp fuel (.evalE e) s
        .error ("UserThrow: " ++ Value.jsToString v)
    | .execBlock ss extra =>
      -- executeBlock via withNewScope: fresh child of the current
      -- scope, extra bindings defined first, current restored after.
      let prev := s.current
      let s := pushScope s s.current extra
      match interp fuel (.execStmts ss .vnull) s with
      | .ok (v, s') => .ok (v, { s' with current := prev })
      | .error e => .error e
    | .applyFn fv args =>
      match fv with
      | .vclosure params body capIdx =>
        -- calling a closure: child of the captured scope, positional
        -- parameter binding (missing arguments become undefined),
        -- current restored after.
        let prev := s.current
        let s := pushScope s capIdx []
        let s := (params.enum.foldl
          (fun st p => define st p.2 ((args.getD p.1 .vundefined))) s)
        match body with
        | .exprB e =>
          match interp fuel (.evalE e) s with
          | .ok (v, s') => .ok (v, { s' with current := prev })
          | .error e => .error e
        | .stmtsB ss =>
          match interp fuel (.execStmts ss .vnull) s with
          | .ok (v, s') =>
            match v with
            | .signal .ret rv => .ok (rv, { s' with current := prev })
            | _ => .ok (v, { s' with current := prev })
          | .error e => .error e
      | _ => .error "Expression is not a function"
    | .whileLoop cond body lastVal => do
      let (c, s) ← interp fuel (.evalE cond) s
      if c.truthy then do
        let (v, s) ← interp fuel (.execBlock body []) s
        match v with
        | .signal .brk _ => .ok (.vnull, s)
        | .signal .cont _ => interp fuel (.whileLoop cond body .vnull) s
        | .signal .ret _ => .ok (v, s)
        | _ => interp fuel (.whileLoop cond body v) s
      else .ok (lastVal, s)
    | .forList iv tv items body idx lastVal =>
      match items with
      | [] => .ok (lastVal, s)
      | item :: rest =>
        let s := bindLoopVars iv tv s idx item
        match interp fuel (.execBlock body []) s with
        | .error e => .error e
        | .ok (v, s) =>
          match v with
          | .signal .brk _ => .ok (.vnull, s)
          | .signal .cont _ =>
            -- the source's `continue` skips the index++ at the loop end
            interp fuel (.forList iv tv rest body idx .vnull) s
          | .signal .ret _ => .ok (v, s)
          | _ => interp fuel (.forList iv tv rest body (idx + 1) v) s
    | .forMap iv tv entries body idx lastVal =>
      match entries with
      | [] => .ok (lastVal, s)
      | (k, v0) :: rest =>
        let record : Value := .vmapv [(.vstr "key", k), (.vstr "value", v0)]
        let s := define s tv.lexeme record
        let s := match iv with
          | some ivTok => define s ivTok.lexeme k
          | none => s
        match interp fuel (.execBlock body []) s with
        | .error e => .error e
        | .ok (v, s) =>
          match v with
          | .signal .brk _ => .ok (.vnull, s)
          | .signal .cont _ => interp fuel (.forMap iv tv rest body idx .vnull) s
          | .signal .ret _ => .ok (v, s)
          | _ => interp fuel (.forMap iv tv rest body (idx + 1) v) s
    | .elsifChain branches elseB =>
      match branches with
      | [] =>
        match elseB with
        | some b => interp fuel (.execBlock b []) s
        | none => .ok (.vnull, s)
      | (c, b) :: rest => do
        let (cv, s) ← interp fuel (.evalE c) s
        if cv.truthy then interp fuel (.execBlock b []) s
        else interp fuel (.elsifChain rest elseB) s

/-- The list-iterating for loop again, instrumented with a ghost trace:
for every iteration whose body starts, it records the index value bound
for the loop variables and whether that iteration's body ended with a
continue signal.  Its non-trace component is proved to agree with the
forList case of interp. -/
def forListTrace (iv : Option Token) (tv : Token) (body : List Stmt) :
    Nat → List Value → Nat → Value → IState →
    List (Nat × Bool) × Except String (Value × IState)
  | 0, _, _, _, _ => ([], .error "interpreter: out of fuel")
  | fuel + 1, items, idx, lastVal, s =>
    match items with
    | [] => ([], .ok (lastVal, s))
    | item :: rest =>
      let s := bindLoopVars iv tv s idx item
      match interp fuel (.execBlock body []) s with
      | .error e => ([(idx, false)], .error e)
      | .ok (v, s) =>
        match v with
        | .signal .brk _ => ([(idx, false)], .ok (.vnull, s))
        | .signal .cont _ =>
          let (tr, r) := forListTrace iv tv body fuel rest idx .vnull s
          ((idx, true) :: tr, r)
        | .signal .ret _ => ([(idx, false)], .ok (v, s))
        | _ =>
          let (tr, r) := forListTrace iv tv body fuel rest (idx + 1) v s
          ((idx, false) :: tr, r)

/-- Interpreter.evaluate with explicit fuel. -/
def evaluate (fuel : Nat) (e : Expr) (s : IState) : Except String (Value × IState) :=
  interp fuel (.evalE e) s

/-- Interpreter.executeStatements with explicit fuel. -/
def executeStatements (fuel : Nat) (ss : List Stmt) (s : IState) :
    Except String (Value × IState) :=
  interp fuel (.execStmts ss .vnull) s

/-- The AviatorScript.execute pipeline restricted to a caller context
(the scripts verified here call no catalog built-ins): parse the code
and execute the statements on a fresh interpreter over the context. -/
def runScript (fuel : Nat) (code : String) (ctx : List (String × Value)) :
    Except String (Value × IState) :=
  match ScriptParser.parse code with
  | .error e => .error ("ParseError: " ++ e.message)
  | .ok stmts => executeStatements fuel stmts (new ctx)

/-- The script value of the pipeline. -/
def scriptValue (fuel : Nat) (code : String) (ctx : List (String × Value)) :
    Except String Value :=
  (runScript fuel code ctx).map (·.1)

end Interp

/-! ## Static analyzer (src/analyzer) -/

/-- AviatorType from src/analyzer/types.ts; displayed with the enum's
string value (used inside diagnostic messages). -/
inductive AviatorType where
  | long | double | boolean | str | pattern | bigint | decimal
  | nil | voidTy | anyTy | list | mapTy | setTy
  deriving DecidableEq, Repr

def AviatorType.display : AviatorType → String
  | .long => "long"
  | .double => "double"
  | .boolean => "boolean"
  | .str => "string"
  | .pattern => "pattern"
  | .bigint => "bigint"
  | .decimal => "decimal"
  | .nil => "nil"
  | .voidTy => "void"
  | .anyTy => "any"
  | .list => "list"
  | .mapTy => "map"
  | .setTy => "set"

inductive DiagnosticSeverity where
  | error | warning | information
  deriving DecidableEq, Repr

/-- Diagnostic records as pushed by addError/addWarn (neither sets the
optional column field, so it is omitted here). -/
structure Diagnostic where
  message : String
  line : Nat
  severity : DiagnosticSeverity
  source : String
  deriving DecidableEq, Repr

/-- One SymbolTable of src/analyzer/symbol_table.ts, heap-allocated
like the interpreter scopes. -/
structure STable where
  parent : Option Nat
  symbols : List (String × AviatorType)

structure AState where
  tables : List STable
  diags : List Diagnostic

namespace Analyzer

def getTable (s : AState) (i : Nat) : STable := s.tables.getD i { parent := none, symbols := [] }

def setSym (syms : List (String × AviatorType)) (x : String) (t : AviatorType) :
    List (String × AviatorType) :=
  if (syms.lookup x).isSome then
    syms.map (fun p => if p.1 = x then (x, t) else p)
  else syms ++ [(x, t)]

/-- SymbolTable.define on the table at index i. -/
def defineSym (s : AState) (i : Nat) (x : String) (t : AviatorType) : AState :=
  let tb := getTable s i
  { s with tables := s.tables.set i { tb with symbols := setSym tb.symbols x t } }

/-- SymbolTable.resolve: chain walk. -/
def resolveSym : Nat → AState → Nat → String → Option AviatorType
  | 0, _, _, _ => none
  | fuel + 1, s, i, x =>
    match (getTable s i).symbols.lookup x with
    | some t => some t
    | none =>
      match (getTable s i).parent with
      | some p => resolveSym fuel s p x
      | none => none

def resolve (s : AState) (i : Nat) (x : String) : Option AviatorType :=
  resolveSym s.tables.length s i x

/-- SymbolTable.createChild: a fresh table whose parent is i. -/
def createChild (s : AState) (i : Nat) : AState × Nat :=
  ({ s with tables := s.tables ++ [{ parent := some i, symbols := [] }] }, s.tables.length)

def addError (s : AState) (msg : String) (line : Nat) : AState :=
  { s with diags := s.diags ++
      [{ message := msg, line := line, severity := .error, source := "static-analysis" }] }

def addWarn (s : AState) (msg : String) (line : Nat) : AState :=
  { s with diags := s.diags ++
      [{ message := msg, line := line, severity := .warning, source := "static-analysis" }] }

/-- StaticAnalyzer.registerBuiltins: every name defined (all as Any) in
the global scope, in source order. -/
def builtinGlobals : List (String × AviatorType) :=
  [("println", .anyTy), ("print", .anyTy), ("p", .anyTy), ("sysdate", .anyTy),
   ("now", .anyTy), ("rand", .anyTy), ("cmp", .anyTy),
   ("long", .anyTy), ("double", .anyTy), ("boolean", .anyTy), ("str", .anyTy),
   ("identity", .anyTy), ("type", .anyTy), ("is_def", .anyTy),
   ("range", .anyTy), ("tuple", .anyTy), ("max", .anyTy), ("min", .anyTy),
   ("count", .anyTy), ("is_empty", .anyTy), ("map", .anyTy), ("filter", .anyTy),
   ("reduce", .anyTy), ("include", .anyTy), ("sort", .anyTy), ("reverse", .anyTy),
   ("seq.list", .anyTy), ("seq.set", .anyTy), ("seq.map", .anyTy), ("seq.add", .anyTy),
   ("seq.get", .anyTy), ("seq.contains_key", .anyTy), ("seq.remove", .anyTy),
   ("string.contains", .anyTy), ("string.length", .anyTy), ("string.startsWith", .anyTy),
   ("string.endsWith", .anyTy), ("string.substring", .anyTy), ("string.indexOf", .anyTy),
   ("string.split", .anyTy), ("string.join", .anyTy), ("string.replace_first", .anyTy),
   ("string.replace_all", .anyTy),
   ("math.abs", .anyTy), ("math.round", .anyTy), ("math.floor", .anyTy),
   ("math.ceil", .anyTy), ("math.sqrt", .anyTy), ("math.pow", .anyTy),
   ("math.log", .anyTy), ("math.log10", .anyTy), ("math.sin", .anyTy),
   ("math.cos", .anyTy), ("math.tan", .anyTy), ("math.atan", .anyTy),
   ("math.acos", .anyTy), ("math.asin", .anyTy), ("Math_max", .anyTy), ("Math_min", .anyTy),
   ("seq.eq", .anyTy), ("seq.neq", .anyTy), ("seq.gt", .anyTy), ("seq.ge", .anyTy),
   ("seq.lt", .anyTy), ("seq.le", .anyTy), ("seq.nil", .anyTy), ("seq.exists", .anyTy)]

/-- The builtinsReturnType map, in source order. -/
def builtinsReturnType : List (String × AviatorType) :=
  [("long", .long), ("double", .double), ("boolean", .boolean), ("str", .str),
   ("identity", .anyTy), ("type", .str), ("is_def", .boolean),
   ("range", .list), ("tuple", .list), ("max", .anyTy), ("min", .anyTy),
   ("count", .long), ("is_empty", .boolean), ("map", .list), ("filter", .list),
   ("reduce", .anyTy), ("include", .boolean), ("sort", .list), ("reverse", .list),
   ("seq.list", .list), ("seq.set", .setTy), ("seq.map", .mapTy), ("seq.add", .anyTy),
   ("seq.get", .anyTy), ("seq.contains_key", .boolean), ("seq.remove", .anyTy),
   ("string.contains", .boolean), ("string.length", .long), ("string.startsWith", .boolean),
   ("string.endsWith", .boolean), ("string.substring", .str), ("string.indexOf", .long),
   ("string.split", .list), ("string.join", .str), ("string.replace_first", .str),
   ("string.replace_all", .str),
   ("math.abs", .double), ("math.round", .long), ("math.floor", .double),
   ("math.ceil", .double), ("math.sqrt", .double), ("math.pow", .double),
   ("math.log", .double), ("math.log10", .double), ("math.sin", .double),
   ("math.cos", .double), ("math.tan", .double), ("math.atan", .double),
   ("math.acos", .double), ("math.asin", .double), ("Math_max", .double), ("Math_min", .double),
   ("seq.eq", .anyTy), ("seq.neq", .anyTy), ("seq.gt", .anyTy), ("seq.ge", .anyTy),
   ("seq.lt", .anyTy), ("seq.le", .anyTy), ("seq.nil", .anyTy), ("seq.exists", .anyTy)]

/-- StaticAnalyzer constructor: global table seeded with the caller's
type environment, then the built-in catalog. -/
def initAState (env : List (String × AviatorType)) : AState :=
  let s : AState := { tables := [{ parent := none, symbols := [] }], diags := [] }
  let s := env.foldl (fun st p => defineSym st 0 p.1 p.2) s
  builtinGlobals.foldl (fun st p => defineSym st 0 p.1 p.2) s

/-- StaticAnalyzer.buildFullNameIfLeaf (unlike the interpreter's
flattenName, it does not require the leaf tokens to be identifiers). -/
def buildFullNameIfLeaf : Expr → Option String
  | .leaf tok => some tok.lexeme
  | .node op ops =>
    if op.type = .DOT then
      match ops with
      | [l, r] =>
        match buildFullNameIfLeaf l, buildFullNameIfLeaf r with
        | some ln, some rn => some (ln ++ "." ++ rn)
        | _, _ => none
      | _ => none
    else none
  | _ => none

/-- StaticAnalyzer.getLine. -/
def getLine : Expr → Nat
  | .leaf tok => tok.line
  | .node op _ => op.line
  | _ => 0

def isBooleanCompatible (t : AviatorType) : Bool :=
  t == .boolean || t == .anyTy

/-- Analyzer requests: one per analyzer method / traversal loop. -/
inductive ARq where
  | aStmts (ss : List Stmt) (scope : Nat)
  | aStmt (st : Stmt) (scope : Nat)
  | aExpr (e : Expr) (scope : Nat)
  | aExprList (es : List Expr) (scope : Nat)
  | aElsifs (branches : List (Expr × List Stmt)) (scope : Nat)

/-- The analyzer walk.  The result type is meaningful for aExpr; the
other requests return voidTy.  Never throws (semantic issues become
diagnostics). -/
def analyzeAux : Nat → ARq → AState → AviatorType × AState
  | 0, _, s => (.anyTy, s)
  | fuel + 1, req, s =>
    match req with
    | .aStmts ss scope =>
      match ss with
      | [] => (.voidTy, s)
      | st :: rest =>
        let (_, s) := analyzeAux fuel (.aStmt st scope) s
        analyzeAux fuel (.aStmts rest scope) s
    | .aStmt st scope =>
      match st with
      | .letStmt name init =>
        let (t, s) := analyzeAux fuel (.aExpr init scope) s
        (.voidTy, defineSym s scope name.lexeme t)
      | .exprStmt e =>
        let (_, s) := analyzeAux fuel (.aExpr e scope) s
        (.voidTy, s)
      | .ifStmt cond thenB elsifs elseB =>
        let (condTy, s) := analyzeAux fuel (.aExpr cond scope) s
        let s :=
          if condTy != .boolean && condTy != .anyTy then
            addError s ("'if' condition expects boolean, got " ++ condTy.display) (getLine cond)
          else s
        let (s, child) := createChild s scope
        let (_, s) := analyzeAux fuel (.aStmts thenB child) s
        let (_, s) := analyzeAux fuel (.aElsifs elsifs scope) s
        match elseB with
        | some b =>
          let (s, child2) := createChild s scope
          let (_, s) := analyzeAux fuel (.aStmts b child2) s
          (.voidTy, s)
        | none => (.voidTy, s)
      | .whileStmt cond body =>
        let (condTy, s) := analyzeAux fuel (.aExpr cond scope) s
        let s :=
          if condTy != .boolean && condTy != .anyTy then
            addError s ("'while' condition expects boolean, got " ++ condTy.display) (getLine cond)
          else s
        let (s, child) := createChild s scope
        let (_, s) := analyzeAux fuel (.aStmts body child) s
        (.voidTy, s)
      | .forStmt iv tv iter body =>
        let (_, s) := analyzeAux fuel (.aExpr iter scope) s
        let (s, child) := createChild s scope
        let s := match iv with
          | some t => defineSym s child t.lexeme .anyTy
          | none => s
        let s := defineSym s child tv.lexeme .anyTy
        let (_, s) := analyzeAux fuel (.aStmts body child) s
        (.voidTy, s)
      | .blockStmt ss =>
        let (s, child) := createChild s scope
        let (_, s) := analyzeAux fuel (.aStmts ss child) s
        (.voidTy, s)
      | .returnStmt v? =>
        match v? with
        | some v =>
          let (_, s) := analyzeAux fuel (.aExpr v scope) s
          (.voidTy, s)
        | none => (.voidTy, s)
      | .fnStmt name params body =>
        let s := defineSym s scope name.lexeme .anyTy
        let (s, child) := createChild s scope
        let s := params.foldl (fun st p => defineSym st child p.lexeme .anyTy) s
        let (_, s) := analyzeAux fuel (.aStmts body child) s
        (.voidTy, s)
      | .tryStmt tryB catchVar catchB finallyB =>
        let (s, child) := createChild s scope
        let (_, s) := analyzeAux fuel (.aStmts tryB child) s
        let s :=
          match catchB with
          | some cb =>
            let (s, cchild) := createChild s scope
            let s := match catchVar with
              | some cv => defineSym s cchild cv.lexeme .anyTy
              | none => s
            (analyzeAux fuel (.aStmts cb cchild) s).2
          | none => s
        match finallyB with
        | some fb =>
          let (s, fchild) := createChild s scope
          let (_, s) := analyzeAux fuel (.aStmts fb fchild) s
          (.voidTy, s)
        | none => (.voidTy, s)
      | .throwStmt v =>
        let (_, s) := analyzeAux fuel (.aExpr v scope) s
        (.voidTy, s)
      | .breakStmt => (.voidTy, s)
      | .continueStmt => (.voidTy, s)
    | .aElsifs branches scope =>
      match branches with
      | [] => (.voidTy, s)
      | (c, b) :: rest =>
        let (condTy, s) := analyzeAux fuel (.aExpr c scope) s
        let s :=
          if condTy != .boolean && condTy != .anyTy then
            addError s ("'elsif' condition expects boolean, got " ++ condTy.display) (getLine c)
          else s
        let (s, child) := createChild s scope
        let (_, s) := analyzeAux fuel (.aStmts b child) s
        analyzeAux fuel (.aElsifs rest scope) s
    | .aExprList es scope =>
      match es with
      | [] => (.voidTy, s)
      | e :: rest =>
        let (_, s) := analyzeAux fuel (.aExpr e scope) s
        analyzeAux fuel (.aExprList rest scope) s
    | .aExpr e scope =>
      match e with
      | .leaf tok =>
        -- analyzeLeaf
        match tok.type with
        | .NUMBER =>
          if strEndsWith tok.lexeme "N" then (.bigint, s)
          else if strEndsWith tok.lexeme "M" then (.decimal, s)
          else if tok.lexeme.data.contains '.'
              || (tok.lexeme.data.map Char.toLower).contains 'e' then (.double, s)
          else (.long, s)
        | .STRING => (.str, s)
        | .TRUE => (.boolean, s)
        | .FALSE => (.boolean, s)
        | .NIL => (.nil, s)
        | .REGEX => (.pattern, s)
        | .IDENTIFIER =>
          match resolve s scope tok.lexeme with
          | some t => (t, s)
          | none =>
            (.anyTy,
             addError s ("Undefined variable '" ++ tok.lexeme ++ "'") tok.line)
        | _ => (.anyTy, s)
      | .node op ops =>
        -- analyzeNode
        match ops with
        | [a] =>
          let (right, s) := analyzeAux fuel (.aExpr a scope) s
          if op.type = .LOGIC_NOT then (.boolean, s)
          else (right, s)
        | [l, r] =>
          if op.type = .DOT then
            match buildFullNameIfLeaf (.node op [l, r]) with
            | some full =>
              match resolve s scope full with
              | some t => (t, s)
              | none =>
                let (_, s) := analyzeAux fuel (.aExpr l scope) s
                let (_, s) := analyzeAux fuel (.aExpr r scope) s
                (.anyTy, s)
            | none =>
              let (_, s) := analyzeAux fuel (.aExpr l scope) s
              let (_, s) := analyzeAux fuel (.aExpr r scope) s
              (.anyTy, s)
          else if op.type = .ASSIGN then
            let (rightTy, s) := analyzeAux fuel (.aExpr r scope) s
            match l with
            | .leaf lt =>
              if lt.type = .IDENTIFIER then
                let existing := resolve s scope lt.lexeme
                let s :=
                  match existing with
                  | some ex =>
                    if ex != .anyTy && rightTy != .anyTy && ex != rightTy then
                      defineSym s scope lt.lexeme rightTy
                    else s
                  | none => defineSym s scope lt.lexeme rightTy
                (rightTy, s)
              else
                let (_, s) := analyzeAux fuel (.aExpr l scope) s
                (rightTy, s)
            | _ =>
              let (_, s) := analyzeAux fuel (.aExpr l scope) s
              (rightTy, s)
          else
            let (left, s) := analyzeAux fuel (.aExpr l scope) s
            let (right, s) := analyzeAux fuel (.aExpr r scope) s
            if op.type = .LOGIC_AND || op.type = .LOGIC_OR then
              let s :=
                if !(isBooleanCompatible left) then
                  addError s ("Left operand of '" ++ op.lexeme ++ "' must be boolean, got "
                              ++ left.display) (getLine l)
                else s
              let s :=
                if !(isBooleanCompatible right) then
                  addError s ("Right operand of '" ++ op.lexeme ++ "' must be boolean, got "
                              ++ right.display) (getLine r)
                else s
              (.boolean, s)
            else if op.type = .EQUAL || op.type = .NOT_EQUAL || op.type = .GREATER_THAN
                || op.type = .LESS_THAN || op.type = .GREATER_THAN_EQUAL
                || op.type = .LESS_THAN_EQUAL then
              (.boolean, s)
            else if op.type = .ADD || op.type = .SUBTRACT || op.type = .MULTIPLY
                || op.type = .DIVIDE || op.type = .MOD then
              if op.type = .ADD && (left == .str || right == .str) then (.str, s)
              else if left == .decimal || right == .decimal then (.decimal, s)
              else if left == .double || right == .double then (.double, s)
              else if left == .bigint || right == .bigint then (.bigint, s)
              else (.long, s)
            else if op.type = .LIKE then
              let s :=
                if left != .str && left != .anyTy then
                  addWarn s ("Left operand of '=~' should be string, got " ++ left.display)
                    (getLine l)
                else s
              (.boolean, s)
            else (.anyTy, s)
        | [a, b, c] =>
          if op.type = .CONDITIONAL then
            let (cond, s) := analyzeAux fuel (.aExpr a scope) s
            let s :=
              if !(isBooleanCompatible cond) then
                addError s ("Ternary condition must be boolean, got " ++ cond.display)
                  (getLine a)
              else s
            let (trueTy, s) := analyzeAux fuel (.aExpr b scope) s
            let (falseTy, s) := analyzeAux fuel (.aExpr c scope) s
            if trueTy = falseTy then (trueTy, s) else (.anyTy, s)
          else (.anyTy, s)
        | _ => (.anyTy, s)
      | .call f args =>
        let (_, s) := analyzeAux fuel (.aExpr f scope) s
        let (_, s) := analyzeAux fuel (.aExprList args scope) s
        match buildFullNameIfLeaf f with
        | none => (.anyTy, s)
        | some funcName =>
          match resolve s scope funcName with
          | none =>
            (.anyTy,
             addError s ("Undefined function '" ++ funcName ++ "'") (getLine (.call f args)))
          | some _ =>
            match builtinsReturnType.lookup funcName with
            | some t => (t, s)
            | none => (.anyTy, s)
      | .lambda ps body =>
        let (s, child) := createChild s scope
        let s := ps.foldl (fun st p => defineSym st child p.lexeme .anyTy) s
        let (_, s) := analyzeAux fuel (.aExpr body child) s
        (.anyTy, s)

/-- StaticAnalyzer.analyze: parse, then analyze; a parser error becomes
a single error diagnostic at the offending token's line (0 when no
token is attached). -/
def analyze (fuel : Nat) (env : List (String × AviatorType)) (code : String) :
    List Diagnostic :=
  let s := initAState env
  match ScriptParser.parse code with
  | .error e =>
    let line := match e.token with
      | some t => t.line
      | none => 0
    (addError s e.message line).diags
  | .ok stmts =>
    (analyzeAux fuel (.aStmts stmts 0) s).2.diags

end Analyzer

/-! ## Pending-execution engine (src/executor) -/

namespace Executor

/-- ExpressionRuntime from src/executor/types.ts: run evaluates a
textual expression against a context; getBuiltinIdentifiers enumerates
names the factory must treat as bound. -/
structure PRuntime where
  run : String → List (String × Value) → Except String Value
  builtinIdentifiers : List String

/-- The ScopedSet-based free-identifier traversal of ValueExecution:
g is the root scope (the accumulated global set), stack the entered
lambda scopes; contains consults the whole chain. -/
def scopedContains (g : List String) (stack : List (List String)) (x : String) : Bool :=
  g.contains x || stack.any (fun sc => sc.contains x)

/-- ValueExecution.addIfNotBuiltin (addTopScope adds to the root set;
the Set type deduplicates). -/
def addIfNotBuiltin (rt : PRuntime) (g : List String) (x : String) : List String :=
  if rt.builtinIdentifiers.contains x then g
  else if g.contains x then g else g ++ [x]

mutual

/-- ValueExecution.dfs: free identifiers, with dot-chains rooted at an
identifier contributing only the root identifier and lambda parameters
shadowing the body. -/
def dfsVars (rt : PRuntime) : Expr → List (List String) → List String → List String
  | .leaf tok, stack, g =>
    if tok.type = .IDENTIFIER && !(scopedContains g stack tok.lexeme) then
      addIfNotBuiltin rt g tok.lexeme
    else g
  | .node op ops, stack, g =>
    if op.type = .DOT then
      match ops with
      | .leaf lt :: _ =>
        if lt.type = .IDENTIFIER then addIfNotBuiltin rt g lt.lexeme
        else dfsVarsList rt ops stack g
      | _ => dfsVarsList rt ops stack g
    else dfsVarsList rt ops stack g
  | .call f args, stack, g => dfsVarsList rt args stack (dfsVars rt f stack g)
  | .lambda ps body, stack, g => dfsVars rt body (ps.map (·.lexeme) :: stack) g

def dfsVarsList (rt : PRuntime) : List Expr → List (List String) → List String → List String
  | [], _, g => g
  | e :: es, stack, g => dfsVarsList rt es stack (dfsVars rt e stack g)

end

/-- Pending executions: ValueExecution with its extracted identifier
set, stored context and memoized result, and the four structural
combinators with their caches. -/
inductive PExec where
  | valueE (identifiers : List String) (context : List (String × Value))
      (node : Expr) (cache : Option Bool)
  | andE (left right : PExec) (cache : Option Bool)
  | orE (left right : PExec) (cache : Option Bool)
  | notE (child : PExec) (cache : Option Bool)
  | condE (condition thenE elseE : PExec) (cache : Option Bool)

/-- ValueExecution construction: extract the free identifiers. -/
def mkValue (rt : PRuntime) (node : Expr) : PExec :=
  .valueE (dfsVars rt node [] []) [] node none

/-- AviatorPendingExecutionFactory.build.  (A logical operator node
with a malformed operand count would crash the source on an undefined
child; the parser never produces one, and such nodes fall through to a
ValueExecution here.) -/
def build (rt : PRuntime) : Nat → Expr → PExec
  | 0, e => mkValue rt e
  | fuel + 1, e =>
    match e with
    | .node op ops =>
      if op.type = .LOGIC_AND then
        match ops with
        | [a, b] => .andE (build rt fuel a) (build rt fuel b) none
        | _ => mkValue rt e
      else if op.type = .LOGIC_OR then
        match ops with
        | [a, b] => .orE (build rt fuel a) (build rt fuel b) none
        | _ => mkValue rt e
      else if op.type = .LOGIC_NOT then
        match ops with
        | [a] => .notE (build rt fuel a) none
        | _ => mkValue rt e
      else if op.type = .CONDITIONAL then
        match ops with
        | [a, b, c] => .condE (build rt fuel a) (build rt fuel b) (build rt fuel c) none
        | _ => mkValue rt e
      else mkValue rt e
    | _ => mkValue rt e

/-- provide: a ValueExecution stores the value if the name is in its
free set; combinators always forward to their children. -/
def provide : PExec → String → Value → PExec
  | .valueE ids ctx node cache, x, v =>
    if ids.contains x then .valueE ids (Interp.setVar ctx x v) node cache
    else .valueE ids ctx node cache
  | .andE l r c, x, v => .andE (provide l x v) (provide r x v) c
  | .orE l r c, x, v => .orE (provide l x v) (provide r x v) c
  | .notE ch c, x, v => .notE (provide ch x v) c
  | .condE a b e c, x, v => .condE (provide a x v) (provide b x v) (provide e x v) c

mutual

/-- canExecute.  The And/Or short-circuit probes call execute on the
children (whose memoization they thread); a probe failure is swallowed
by the source's try/catch, leaving the child as it was.  The
conditional combinator executes its condition without a catch, so its
canExecute can propagate an error. -/
def canExecute : Nat → PRuntime → PExec → Except String (Bool × PExec)
  | 0, _, _ => .error "executor: out of fuel"
  | fuel + 1, rt, pe =>
    match pe with
    | .valueE ids ctx node cache =>
      .ok (ids.all (fun x => (ctx.lookup x).isSome), .valueE ids ctx node cache)
    | .andE l r cache => do
      let (lc, l) ← canExecute fuel rt l
      let (both, l, r) ←
        if lc then do
          let (rc, r) ← canExecute fuel rt r
          .ok (rc, l, r)
        else .ok (false, l, r)
      if both then .ok (true, .andE l r cache)
      else do
        -- second probe: left short-circuit (execute failures ignored)
        let (lc2, l) ← canExecute fuel rt l
        let (shortL, l) ←
          if lc2 then
            match execute fuel rt l with
            | .ok (lv, l') => .ok (lv == false, l')
            | .error _ => .ok (false, l)
          else .ok (false, l)
        if shortL then .ok (true, .andE l r cache)
        else do
          let (rc2, r) ← canExecute fuel rt r
          let (shortR, r) ←
            if rc2 then
              match execute fuel rt r with
              | .ok (rv, r') => .ok (rv == false, r')
              | .error _ => .ok (false, r)
            else .ok (false, r)
          if shortR then .ok (true, .andE l r cache)
          else .ok (false, .andE l r cache)
    | .orE l r cache => do
      let (lc, l) ← canExecute fuel rt l
      let (both, l, r) ←
        if lc then do
          let (rc, r) ← canExecute fuel rt r
          .ok (rc, l, r)
        else .ok (false, l, r)
      if both then .ok (true, .orE l r cache)
      else do
        let (lc2, l) ← canExecute fuel rt l
        let (shortL, l) ←
          if lc2 then
            match execute fuel rt l with
            | .ok (lv, l') => .ok (lv == true, l')
            | .error _ => .ok (false, l)
          else .ok (false, l)
        if shortL then .ok (true, .orE l r cache)
        else do
          let (rc2, r) ← canExecute fuel rt r
          let (shortR, r) ←
            if rc2 then
              match execute fuel rt r with
              | .ok (rv, r') => .ok (rv == true, r')
              | .error _ => .ok (false, r)
            else .ok (false, r)
          if shortR then .ok (true, .orE l r cache)
          else .ok (false, .orE l r cache)
    | .notE ch cache => do
      let (cc, ch) ← canExecute fuel rt ch
      .ok (cc, .notE ch cache)
    | .condE c t e cache => do
      let (cc, c) ← canExecute fuel rt c
      if cc then do
        let (cv, c) ← execute fuel rt c
        if cv then do
          let (tc, t) ← canExecute fuel rt t
          .ok (tc, .condE c t e cache)
        else do
          let (ec, e) ← canExecute fuel rt e
          .ok (ec, .condE c t e cache)
      else .ok (false, .condE c t e cache)

/-- execute: memoized; a ValueExecution hands the textual form of its
node and the provided context to the runtime and asserts a boolean
result. -/
def execute : Nat → PRuntime → PExec → Except String (Bool × PExec)
  | 0, _, _ => .error "executor: out of fuel"
  | fuel + 1, rt, pe =>
    match pe with
    | .valueE ids ctx node cache =>
      match cache with
      | some b => .ok (b, .valueE ids ctx node cache)
      | none => do
        let result ← rt.run node.toText ctx
        match result with
        | .vbool b => .ok (b, .valueE ids ctx node (some b))
        | _ => .error "type error: expected boolean result"
    | .andE l r cache =>
      match cache with
      | some b => .ok (b, .andE l r cache)
      | none => do
        -- first if: left.canExecute() && right.canExecute() (the right
        -- probe runs only when the left succeeded)
        let (lc1, l) ← canExecute fuel rt l
        let (both, l, r) ←
          if lc1 then do
            let (rc1, r) ← canExecute fuel rt r
            .ok (rc1, l, r)
          else .ok (false, l, r)
        if both then do
          -- left.execute() && right.execute(), short-circuiting
          let (lv, l) ← execute fuel rt l
          if lv then do
            let (rv, r) ← execute fuel rt r
            .ok (rv, .andE l r (some rv))
          else .ok (false, .andE l r (some false))
        else do
          -- second if: left.canExecute() && !left.execute()
          let (lc2, l) ← canExecute fuel rt l
          let (shortL, l) ←
            if lc2 then do
              let (lv, l) ← execute fuel rt l
              .ok (lv == false, l)
            else .ok (false, l)
          if shortL then .ok (false, .andE l r (some false))
          else do
            -- third if: right.canExecute() && !right.execute()
            let (rc2, r) ← canExecute fuel rt r
            let (shortR, r) ←
              if rc2 then do
                let (rv, r) ← execute fuel rt r
                .ok (rv == false, r)
              else .ok (false, r)
            if shortR then .ok (false, .andE l r (some false))
            else .error "cannot execute"
    | .orE l r cache =>
      match cache with
      | some b => .ok (b, .orE l r cache)
      | none => do
        let (lc1, l) ← canExecute fuel rt l
        let (both, l, r) ←
          if lc1 then do
            let (rc1, r) ← canExecute fuel rt r
            .ok (rc1, l, r)
          else .ok (false, l, r)
        if both then do
          let (lv, l) ← execute fuel rt l
          if lv then .ok (true, .orE l r (some true))
          else do
            let (rv, r) ← execute fuel rt r
            .ok (rv, .orE l r (some rv))
        else do
          let (lc2, l) ← canExecute fuel rt l
          let (shortL, l) ←
            if lc2 then do
              let (lv, l) ← execute fuel rt l
              .ok (lv == true, l)
            else .ok (false, l)
          if shortL then .ok (true, .orE l r (some true))
          else do
            let (rc2, r) ← canExecute fuel rt r
            let (shortR, r) ←
              if rc2 then do
                let (rv, r) ← execute fuel rt r
                .ok (rv == true, r)
              else .ok (false, r)
            if shortR then .ok (true, .orE l r (some true))
            else .error "cannot execute"
    | .notE ch cache =>
      match cache with
      | some b => .ok (b, .notE ch cache)
      | none => do
        let (cv, ch) ← execute fuel rt ch
        .ok (!cv, .notE ch (some (!cv)))
    | .condE c t e cache =>
      match cache with
      | some b => .ok (b, .condE c t e cache)
      | none => do
        let (cv, c) ← execute fuel rt c
        if cv then do
          let (tv, t) ← execute fuel rt t
          .ok (tv, .condE c t e (some tv))
        else do
          let (ev, e) ← execute fuel rt e
          .ok (ev, .condE c t e (some ev))

end

/-- AviatorPendingExecutionFactory.compile. -/
def compile (rt : PRuntime) (code : String) : Except String PExec := do
  let e ← Pratt.parse code
  .ok (build rt 64 e)

/-- A host runtime for the pending-execution scenario: evaluates the
textual subexpression (here always a bare identifier) by looking it up
in the provided context; it declares no built-in identifiers. -/
def leafRuntime : PRuntime :=
  { run := fun text ctx =>
      match ctx.lookup text with
      | some v => .ok v
      | none => .error ("unbound: " ++ text),
    builtinIdentifiers := [] }

end Executor

/-! ## Claim-level inputs and specification-side helpers -/

/-- A synthetic identifier token (positions immaterial to parsing). -/
def mkIdentTok (name : String) : Token :=
  { type := .IDENTIFIER, lexeme := name, start := 0, stop := 0, line := 1 }

/-- A synthetic operator token of the given kind. -/
def mkOpTok (t : TokenType) : Token :=
  { type := t, lexeme := "", start := 0, stop := 0, line := 1 }

def eofTok : Token := { type := .EOF, lexeme := "", start := 0, stop := 0, line := 1 }

/-- The token stream of `x a y b z`. -/
def xyzTokens (a b : TokenType) : List Token :=
  [mkIdentTok "x", mkOpTok a, mkIdentTok "y", mkOpTok b, mkIdentTok "z", eofTok]

def lbpOf (t : TokenType) : Nat := (BindingPower.infixLeftMap t).getD 0

def rbpOf (t : TokenType) : Nat := (BindingPower.infixRightMap t).getD 0

/-- Every binary operator of the infix binding-power table (its keys
without the ternary CONDITIONAL). -/
def binaryInfixOps : List TokenType :=
  [.ASSIGN, .LOGIC_OR, .LOGIC_AND, .BIT_OR, .BIT_XOR, .BIT_AND, .LIKE,
   .EQUAL, .NOT_EQUAL, .GREATER_THAN, .GREATER_THAN_EQUAL, .LESS_THAN, .LESS_THAN_EQUAL,
   .SIGNED_BIT_SHIFT_LEFT, .SIGNED_BIT_SHIFT_RIGHT, .UNSIGNED_BIT_SHIFT_RIGHT,
   .ADD, .SUBTRACT, .MOD, .MULTIPLY, .DIVIDE, .POW, .DOT]

/-- The parse result is exactly Node(a, x, Node(b, y, z)). -/
def isRightNested (a b : TokenType) (r : Option Expr) : Bool :=
  match r with
  | some (.node opA [.leaf x, .node opB [.leaf y, .leaf z]]) =>
    opA == mkOpTok a && opB == mkOpTok b &&
    x == mkIdentTok "x" && y == mkIdentTok "y" && z == mkIdentTok "z"
  | _ => false

/-- The parse result is exactly Node(a, Node(a, x, y), z). -/
def isLeftNested (a : TokenType) (r : Option Expr) : Bool :=
  match r with
  | some (.node opA2 [.node opA1 [.leaf x, .leaf y], .leaf z]) =>
    opA1 == mkOpTok a && opA2 == mkOpTok a &&
    x == mkIdentTok "x" && y == mkIdentTok "y" && z == mkIdentTok "z"
  | _ => false

/-- ScriptParser's own expression entry point over a token list. -/
def spExprTokens (toks : List Token) : Except ParseErr Expr := do
  let (_, s) := (PState.initial toks).next
  let (e, _) ← ScriptParser.expr (Pratt.parseFuel toks) 0 s
  .ok e

/-- The counter script of claim C3. -/
def counterScript : String :=
  "fn counter() \x7b let c = 0; return lambda() -> c = c + 1 end; \x7d let f = counter(); f(); f(); f()"

/-- The nested-assignment script of claim C5: assign to an unbound name
inside a block, then read it at top level. -/
def blockAssignScript : String := "\x7b x = 1; \x7d x"

/-- The two-name for script of claim C6, whose first two iterations end
in continue. -/
def forContinueScript : String :=
  "for i, x in xs \x7b if (x != 30) \x7b continue; \x7d \x7d i"

def forContinueCtx : List (String × Value) :=
  [("xs", .vlist [.vnum 10, .vnum 20, .vnum 30])]

/-- The scope chain starting at index i (specification helper: the list
of frame indices that lookup and assignment walk). -/
def chainFrom : Nat → List Scope → Nat → List Nat
  | 0, _, _ => []
  | fuel + 1, heap, i =>
    match heap.get? i with
    | none => []
    | some sc =>
      i :: (match sc.parent with
            | some p => chainFrom fuel heap p
            | none => [])

/-- The default scope used by getScope for out-of-heap indices. -/
def emptyScope : Scope := { parent := none, vars := [] }

/-- The nearest frame in the chain from the current scope that binds x
(specification side: first chain element whose variables contain x). -/
def nearestBinder (s : IState) (x : String) : Option Nat :=
  (chainFrom s.scopes.length s.scopes s.current).find?
    (fun j => ((s.scopes.getD j emptyScope).vars.lookup x).isSome)

/-- Pending-execution scenario A of claim C7: provide a=false only. -/
def c7scenarioA : Except String (Bool × Bool) := do
  let pe ← Executor.compile Executor.leafRuntime "a && b"
  let pe := Executor.provide pe "a" (.vbool false)
  let (can, pe) ← Executor.canExecute 64 Executor.leafRuntime pe
  let (res, _) ← Executor.execute 64 Executor.leafRuntime pe
  .ok (can, res)

/-- Scenario B: provide a=true only, ask canExecute. -/
def c7scenarioB : Except String Bool := do
  let pe ← Executor.compile Executor.leafRuntime "a && b"
  let pe := Executor.provide pe "a" (.vbool true)
  let (can, _) ← Executor.canExecute 64 Executor.leafRuntime pe
  .ok can

/-- Scenario C: after scenario B's probe, additionally provide b=true. -/
def c7scenarioC : Except String (Bool × Bool) := do
  let pe ← Executor.compile Executor.leafRuntime "a && b"
  let pe := Executor.provide pe "a" (.vbool true)
  let (_, pe) ← Executor.canExecute 64 Executor.leafRuntime pe
  let pe := Executor.provide pe "b" (.vbool true)
  let (can, pe) ← Executor.canExecute 64 Executor.leafRuntime pe
  let (res, _) ← Executor.execute 64 Executor.leafRuntime pe
  .ok (can, res)

/-! ## Pre-computed pipeline stages

Kernel reduction shares nothing between repeated forcings of one term,
so composing the lazily-reduced output of one pipeline stage into the
next is intractable for definitional evaluation.  The concrete claim
proofs therefore go through explicit literal intermediate values: the
token list and statement list of each verified script, checked against
the lexer and parser by rfl, and then fed to the next stage. -/

/-- Token constructor shorthand for the literal token lists. -/
def tk (t : TokenType) (lx : String) (a b : Int) (ln : Nat) : Token :=
  { type := t, lexeme := lx, start := a, stop := b, line := ln }

def toksC1a : List Token :=
  [(tk .NUMBER "1" 0 1 1),
   (tk .ADD "+" 2 3 1),
   (tk .NUMBER "2" 4 5 1),
   (tk .SEMICOLON ";" 5 6 1),
   (tk .EOF "" 6 6 1)]

def stmtsC1a : List Stmt :=
  [(.exprStmt (.node (tk .ADD "+" 2 3 1) [(.leaf (tk .NUMBER "1" 0 1 1)), (.leaf (tk .NUMBER "2" 4 5 1))]))]
def toksC1b : List Token :=
  [(tk .NUMBER "1" 0 1 1),
   (tk .ADD "+" 2 3 1),
   (tk .NUMBER "2" 4 5 1),
   (tk .EOF "" 5 5 1)]

def stmtsC1b : List Stmt :=
  [(.exprStmt (.node (tk .ADD "+" 2 3 1) [(.leaf (tk .NUMBER "1" 0 1 1)), (.leaf (tk .NUMBER "2" 4 5 1))]))]
def toksC3 : List Token :=
  [(tk .FN "fn" 0 2 1),
   (tk .IDENTIFIER "counter" 3 10 1),
   (tk .LEFT_PAREN "(" 10 11 1),
   (tk .RIGHT_PAREN ")" 11 12 1),
   (tk .LEFT_BRACE "\x7b" 13 14 1),
   (tk .LET "let" 15 18 1),
   (tk .IDENTIFIER "c" 19 20 1),
   (tk .ASSIGN "=" 21 22 1),
   (tk .NUMBER "0" 23 24 1),
   (tk .SEMICOLON ";" 24 25 1),
   (tk .RETURN "return" 26 32 1),
   (tk .LAMBDA "lambda" 33 39 1),
   (tk .LEFT_PAREN "(" 39 40 1),
   (tk .RIGHT_PAREN ")" 40 41 1),
   (tk .ARROW "->" 42 44 1),
   (tk .IDENTIFIER "c" 45 46 1),
   (tk .ASSIGN "=" 47 48 1),
   (tk .IDENTIFIER "c" 49 50 1),
   (tk .ADD "+" 51 52 1),
   (tk .NUMBER "1" 53 54 1),
   (tk .END "end" 55 58 1),
   (tk .SEMICOLON ";" 58 59 1),
   (tk .RIGHT_BRACE "\x7d" 60 61 1),
   (tk .LET "let" 62 65 1),
   (tk .IDENTIFIER "f" 66 67 1),
   (tk .ASSIGN "=" 68 69 1),
   (tk .IDENTIFIER "counter" 70 77 1),
   (tk .LEFT_PAREN "(" 77 78 1),
   (tk .RIGHT_PAREN ")" 78 79 1),
   (tk .SEMICOLON ";" 79 80 1),
   (tk .IDENTIFIER "f" 81 82 1),
   (tk .LEFT_PAREN "(" 82 83 1),
   (tk .RIGHT_PAREN ")" 83 84 1),
   (tk .SEMICOLON ";" 84 85 1),
   (tk .IDENTIFIER "f" 86 87 1),
   (tk .LEFT_PAREN "(" 87 88 1),
   (tk .RIGHT_PAREN ")" 88 89 1),
   (tk .SEMICOLON ";" 89 90 1),
   (tk .IDENTIFIER "f" 91 92 1),
   (tk .LEFT_PAREN "(" 92 93 1),
   (tk .RIGHT_PAREN ")" 93 94 1),
   (tk .EOF "" 94 94 1)]

def stmtsC3 : List Stmt :=
  [(.fnStmt (tk .IDENTIFIER "counter" 3 10 1) [] [(.letStmt (tk .IDENTIFIER "c" 19 20 1) (.leaf (tk .NUMBER "0" 23 24 1))), (.returnStmt (some (.lambda [] (.node (tk .ASSIGN "=" 47 48 1) [(.leaf (tk .IDENTIFIER "c" 45 46 1)), (.node (tk .ADD "+" 51 52 1) [(.leaf (tk .IDENTIFIER "c" 49 50 1)), (.leaf (tk .NUMBER "1" 53 54 1))])]))))]),
   (.letStmt (tk .IDENTIFIER "f" 66 67 1) (.call (.leaf (tk .IDENTIFIER "counter" 70 77 1)) [])),
   (.exprStmt (.call (.leaf (tk .IDENTIFIER "f" 81 82 1)) [])),
   (.exprStmt (.call (.leaf (tk .IDENTIFIER "f" 86 87 1)) [])),
   (.exprStmt (.call (.leaf (tk .IDENTIFIER "f" 91 92 1)) []))]
def toksC5 : List Token :=
  [(tk .LEFT_BRACE "\x7b" 0 1 1),
   (tk .IDENTIFIER "x" 2 3 1),
   (tk .ASSIGN "=" 4 5 1),
   (tk .NUMBER "1" 6 7 1),
   (tk .SEMICOLON ";" 7 8 1),
   (tk .RIGHT_BRACE "\x7d" 9 10 1),
   (tk .IDENTIFIER "x" 11 12 1),
   (tk .EOF "" 12 12 1)]

def stmtsC5 : List Stmt :=
  [(.blockStmt [(.exprStmt (.node (tk .ASSIGN "=" 4 5 1) [(.leaf (tk .IDENTIFIER "x" 2 3 1)), (.leaf (tk .NUMBER "1" 6 7 1))]))]),
   (.exprStmt (.leaf (tk .IDENTIFIER "x" 11 12 1)))]
def toksC6 : List Token :=
  [(tk .FOR "for" 0 3 1),
   (tk .IDENTIFIER "i" 4 5 1),
   (tk .COMMA "," 5 6 1),
   (tk .IDENTIFIER "x" 7 8 1),
   (tk .IN "in" 9 11 1),
   (tk .IDENTIFIER "xs" 12 14 1),
   (tk .LEFT_BRACE "\x7b" 15 16 1),
   (tk .IF "if" 17 19 1),
   (tk .LEFT_PAREN "(" 20 21 1),
   (tk .IDENTIFIER "x" 21 22 1),
   (tk .NOT_EQUAL "!=" 23 25 1),
   (tk .NUMBER "30" 26 28 1),
   (tk .RIGHT_PAREN ")" 28 29 1),
   (tk .LEFT_BRACE "\x7b" 30 31 1),
   (tk .CONTINUE "continue" 32 40 1),
   (tk .SEMICOLON ";" 40 41 1),
   (tk .RIGHT_BRACE "\x7d" 42 43 1),
   (tk .RIGHT_BRACE "\x7d" 44 45 1),
   (tk .IDENTIFIER "i" 46 47 1),
   (tk .EOF "" 47 47 1)]

def stmtsC6 : List Stmt :=
  [(.forStmt (some (tk .IDENTIFIER "i" 4 5 1)) (tk .IDENTIFIER "x" 7 8 1) (.leaf (tk .IDENTIFIER "xs" 12 14 1)) [(.ifStmt (.node (tk .NOT_EQUAL "!=" 23 25 1) [(.leaf (tk .IDENTIFIER "x" 21 22 1)), (.leaf (tk .NUMBER "30" 26 28 1))]) [.continueStmt] [] none)]),
   (.exprStmt (.leaf (tk .IDENTIFIER "i" 46 47 1)))]
def toksC10a : List Token :=
  [(tk .NIL "nil" 0 3 1),
   (tk .LOGIC_AND "&&" 4 6 1),
   (tk .TRUE "true" 7 11 1),
   (tk .EOF "" 11 11 1)]

def stmtsC10a : List Stmt :=
  [(.exprStmt (.node (tk .LOGIC_AND "&&" 4 6 1) [(.leaf (tk .NIL "nil" 0 3 1)), (.leaf (tk .TRUE "true" 7 11 1))]))]
def toksC10b : List Token :=
  [(tk .NUMBER "1" 0 1 1),
   (tk .LOGIC_OR "||" 2 4 1),
   (tk .NUMBER "2" 5 6 1),
   (tk .EOF "" 6 6 1)]

def stmtsC10b : List Stmt :=
  [(.exprStmt (.node (tk .LOGIC_OR "||" 2 4 1) [(.leaf (tk .NUMBER "1" 0 1 1)), (.leaf (tk .NUMBER "2" 5 6 1))]))]
def toksC10c : List Token :=
  [(tk .NUMBER "0" 0 1 1),
   (tk .LOGIC_AND "&&" 2 4 1),
   (tk .LEFT_PAREN "(" 5 6 1),
   (tk .IDENTIFIER "x" 6 7 1),
   (tk .ASSIGN "=" 8 9 1),
   (tk .NUMBER "1" 10 11 1),
   (tk .RIGHT_PAREN ")" 11 12 1),
   (tk .SEMICOLON ";" 12 13 1),
   (tk .IDENTIFIER "x" 14 15 1),
   (tk .EOF "" 15 15 1)]

def stmtsC10c : List Stmt :=
  [(.exprStmt (.node (tk .LOGIC_AND "&&" 2 4 1) [(.leaf (tk .NUMBER "0" 0 1 1)), (.node (tk .ASSIGN "=" 8 9 1) [(.leaf (tk .IDENTIFIER "x" 6 7 1)), (.leaf (tk .NUMBER "1" 10 11 1))])])),
   (.exprStmt (.leaf (tk .IDENTIFIER "x" 14 15 1)))]
def toksC10d : List Token :=
  [(tk .NUMBER "1" 0 1 1),
   (tk .LOGIC_AND "&&" 2 4 1),
   (tk .LEFT_PAREN "(" 5 6 1),
   (tk .IDENTIFIER "x" 6 7 1),
   (tk .ASSIGN "=" 8 9 1),
   (tk .NUMBER "2" 10 11 1),
   (tk .RIGHT_PAREN ")" 11 12 1),
   (tk .SEMICOLON ";" 12 13 1),
   (tk .IDENTIFIER "x" 14 15 1),
   (tk .EOF "" 15 15 1)]

def stmtsC10d : List Stmt :=
  [(.exprStmt (.node (tk .LOGIC_AND "&&" 2 4 1) [(.leaf (tk .NUMBER "1" 0 1 1)), (.node (tk .ASSIGN "=" 8 9 1) [(.leaf (tk .IDENTIFIER "x" 6 7 1)), (.leaf (tk .NUMBER "2" 10 11 1))])])),
   (.exprStmt (.leaf (tk .IDENTIFIER "x" 14 15 1)))]
def toksC9 : List Token :=
  [(tk .IDENTIFIER "a" 0 1 1),
   (tk .ADD "+" 2 3 1),
   (tk .NUMBER "1" 4 5 1),
   (tk .EOF "" 5 5 1)]

def stmtsC9 : List Stmt :=
  [(.exprStmt (.node (tk .ADD "+" 2 3 1) [(.leaf (tk .IDENTIFIER "a" 0 1 1)), (.leaf (tk .NUMBER "1" 4 5 1))]))]
def toksC8 : List Token :=
  [(tk .IDENTIFIER "a" 0 1 1),
   (tk .DOT "." 1 2 1),
   (tk .ADD "+" 3 4 1),
   (tk .IDENTIFIER "b" 5 6 1),
   (tk .EOF "" 6 6 1)]

def toksC7 : List Token :=
  [(tk .IDENTIFIER "a" 0 1 1),
   (tk .LOGIC_AND "&&" 2 4 1),
   (tk .IDENTIFIER "b" 5 6 1),
   (tk .EOF "" 6 6 1)]

def stmtsC7 : List Stmt :=
  [(.exprStmt (.node (tk .LOGIC_AND "&&" 2 4 1) [(.leaf (tk .IDENTIFIER "a" 0 1 1)), (.leaf (tk .IDENTIFIER "b" 5 6 1))]))]


/-- The expression of "a && b" (shared by the Pratt parser and the
pending-execution factory). -/
def exprC7 : Expr :=
  .node (tk .LOGIC_AND "&&" 2 4 1)
    [(.leaf (tk .IDENTIFIER "a" 0 1 1)), (.leaf (tk .IDENTIFIER "b" 5 6 1))]

/-! ## Supporting lemmas -/

/-- The chain walk of assign mutates exactly the first chain frame that
binds x, and fails (so that assign falls back to the current frame)
exactly when no chain frame binds x. -/
theorem assignAux_eq_nearest (x : String) (v : Value) :
    ∀ (fuel : Nat) (heap : List Scope) (i : Nat),
      Interp.assignAux fuel heap i x v =
        ((chainFrom fuel heap i).find?
            (fun j => ((heap.getD j emptyScope).vars.lookup x).isSome)).map
          (fun j => heap.set j
            { heap.getD j emptyScope with
              vars := Interp.setVar (heap.getD j emptyScope).vars x v }) := by
  intro fuel
  induction fuel with
  | zero => intro heap i; rfl
  | succ f ih =>
    intro heap i
    simp only [Interp.assignAux, chainFrom]
    cases hget : heap.get? i with
    | none => simp
    | some sc =>
      have hd : heap[i]?.getD emptyScope = sc := by
        rw [← List.get?_eq_getElem?, hget]; rfl
      cases hx : (sc.vars.lookup x).isSome with
      | true =>
        simp [List.find?_cons, List.getD_eq_getElem?_getD, hd, hx]
      | false =>
        cases hp : sc.parent with
        | some p =>
          simp [List.find?_cons, List.getD_eq_getElem?_getD, hd, hx, hp, ih heap p]
        | none =>
          simp [List.find?_cons, List.getD_eq_getElem?_getD, hd, hx, hp]

/-- The resolve walk finds exactly the binding of the nearest chain
frame that binds x. -/
theorem resolveAux_eq_nearest (x : String) :
    ∀ (fuel : Nat) (heap : List Scope) (i : Nat),
      Interp.resolveAux fuel heap i x =
        ((chainFrom fuel heap i).find?
            (fun j => ((heap.getD j emptyScope).vars.lookup x).isSome)).bind
          (fun j => (heap.getD j emptyScope).vars.lookup x) := by
  intro fuel
  induction fuel with
  | zero => intro heap i; rfl
  | succ f ih =>
    intro heap i
    simp only [Interp.resolveAux, chainFrom]
    cases hget : heap.get? i with
    | none => simp
    | some sc =>
      have hd : heap[i]?.getD emptyScope = sc := by
        rw [← List.get?_eq_getElem?, hget]; rfl
      cases hx : sc.vars.lookup x with
      | some w => simp [List.find?_cons, List.getD_eq_getElem?_getD, hd, hx]
      | none =>
        cases hp : sc.parent with
        | some p => simp [List.find?_cons, List.getD_eq_getElem?_getD, hd, hx, hp, ih heap p]
        | none => simp [List.find?_cons, List.getD_eq_getElem?_getD, hd, hx, hp]

/-- The non-trace components of the instrumented for loop agree with
the interpreter's list-iterating for loop. -/
theorem forListTrace_agrees (iv : Option Token) (tv : Token) (body : List Stmt) :
    ∀ (fuel : Nat) (items : List Value) (idx : Nat) (lastVal : Value) (s : IState),
      (Interp.forListTrace iv tv body fuel items idx lastVal s).2 =
        Interp.interp fuel (.forList iv tv items body idx lastVal) s := by
  intro fuel
  induction fuel with
  | zero => intro items idx lastVal s; rfl
  | succ f ih =>
    intro items idx lastVal s
    cases items with
    | nil => rfl
    | cons item rest =>
      simp only [Interp.forListTrace, Interp.interp]
      cases hb : Interp.interp f (.execBlock body []) (Interp.bindLoopVars iv tv s idx item) with
      | error e => simp
      | ok p =>
        obtain ⟨v, s'⟩ := p
        cases v with
        | signal k sv => cases k <;> simp [ih]
        | vnull => simp [ih]
        | vundefined => simp [ih]
        | vnum n => simp [ih]
        | vbigint n => simp [ih]
        | vbool b => simp [ih]
        | vstr t => simp [ih]
        | vregex a b => simp [ih]
        | vlist xs => simp [ih]
        | vmapv es => simp [ih]
        | vclosure a b c => simp [ih]

/-- In the instrumented for loop, the index bound at the start of the
k-th recorded iteration is the base index plus the number of earlier
recorded iterations that did not end in a continue signal. -/
theorem forListTrace_idx (iv : Option Token) (tv : Token) (body : List Stmt) :
    ∀ (fuel : Nat) (items : List Value) (idx : Nat) (lastVal : Value) (s : IState)
      (k : Nat)
      (hk : k < ((Interp.forListTrace iv tv body fuel items idx lastVal s).1).length),
      (((Interp.forListTrace iv tv body fuel items idx lastVal s).1).get ⟨k, hk⟩).1 =
        idx + ((((Interp.forListTrace iv tv body fuel items idx lastVal s).1).take k).countP
                 (fun p => !p.2)) := by
  intro fuel
  induction fuel with
  | zero =>
    intro items idx lastVal s k hk
    simp [Interp.forListTrace] at hk
  | succ f ih =>
    intro items idx lastVal s k hk
    cases items with
    | nil => simp [Interp.forListTrace] at hk
    | cons item rest =>
      revert hk
      simp only [Interp.forListTrace]
      cases hb : Interp.interp f (.execBlock body []) (Interp.bindLoopVars iv tv s idx item) with
      | error e =>
        intro hk
        match k, hk with
        | 0, _ => simp
      | ok p =>
        obtain ⟨v, s'⟩ := p
        cases v with
        | signal kk sv =>
          cases kk with
          | brk =>
            intro hk
            match k, hk with
            | 0, _ => simp
          | ret =>
            intro hk
            match k, hk with
            | 0, _ => simp
          | cont =>
            intro hk
            match k, hk with
            | 0, _ => simp
            | Nat.succ k', hk =>
              have hk' : k' <
                  ((Interp.forListTrace iv tv body f rest idx .vnull s').1).length := by
                simpa using hk
              have := ih rest idx .vnull s' k' hk'
              simpa [List.countP_cons, this]
        | vnull =>
          intro hk
          match k, hk with
          | 0, _ => simp
          | Nat.succ k', hk =>
            have hk' : k' <
                ((Interp.forListTrace iv tv body f rest (idx+1) .vnull s').1).length := by
              simpa using hk
            have := ih rest (idx+1) .vnull s' k' hk'
            simp only [List.get_cons_succ, List.take_succ_cons, List.countP_cons, this]
            simp
            omega
        | vundefined =>
          intro hk
          match k, hk with
          | 0, _ => simp
          | Nat.succ k', hk =>
            have hk' : k' <
                ((Interp.forListTrace iv tv body f rest (idx+1) .vundefined s').1).length := by
              simpa using hk
            have := ih rest (idx+1) .vundefined s' k' hk'
            simp only [List.get_cons_succ, List.take_succ_cons, List.countP_cons, this]
            simp
            omega
        | vnum n =>
          intro hk
          match k, hk with
          | 0, _ => simp
          | Nat.succ k', hk =>
            have hk' : k' <
                ((Interp.forListTrace iv tv body f rest (idx+1) (.vnum n) s').1).length := by
              simpa using hk
            have := ih rest (idx+1) (.vnum n) s' k' hk'
            simp only [List.get_cons_succ, List.take_succ_cons, List.countP_cons, this]
            simp
            omega
        | vbigint n =>
          intro hk
          match k, hk with
          | 0, _ => simp
          | Nat.succ k', hk =>
            have hk' : k' <
                ((Interp.forListTrace iv tv body f rest (idx+1) (.vbigint n) s').1).length := by
              simpa using hk
            have := ih rest (idx+1) (.vbigint n) s' k' hk'
            simp only [List.get_cons_succ, List.take_succ_cons, List.countP_cons, this]
            simp
            omega
        | vbool b =>
          intro hk
          match k, hk with
          | 0, _ => simp
          | Nat.succ k', hk =>
            have hk' : k' <
                ((Interp.forListTrace iv tv body f rest (idx+1) (.vbool b) s').1).length := by
              simpa using hk
            have := ih rest (idx+1) (.vbool b) s' k' hk'
            simp only [List.get_cons_succ, List.take_succ_cons, List.countP_cons, this]
            simp
            omega
        | vstr t =>
          intro hk
          match k, hk with
          | 0, _ => simp
          | Nat.succ k', hk =>
            have hk' : k' <
                ((Interp.forListTrace iv tv body f rest (idx+1) (.vstr t) s').1).length := by
              simpa using hk
            have := ih rest (idx+1) (.vstr t) s' k' hk'
            simp only [List.get_cons_succ, List.take_succ_cons, List.countP_cons, this]
            simp
            omega
        | vregex a b =>
          intro hk
          match k, hk with
          | 0, _ => simp
          | Nat.succ k', hk =>
            have hk' : k' <
                ((Interp.forListTrace iv tv body f rest (idx+1) (.vregex a b) s').1).length := by
              simpa using hk
            have := ih rest (idx+1) (.vregex a b) s' k' hk'
            simp only [List.get_cons_succ, List.take_succ_cons, List.countP_cons, this]
            simp
            omega
        | vlist xs =>
          intro hk
          match k, hk with
          | 0, _ => simp
          | Nat.succ k', hk =>
            have hk' : k' <
                ((Interp.forListTrace iv tv body f rest (idx+1) (.vlist xs) s').1).length := by
              simpa using hk
            have := ih rest (idx+1) (.vlist xs) s' k' hk'
            simp only [List.get_cons_succ, List.take_succ_cons, List.countP_cons, this]
            simp
            omega
        | vmapv es =>
          intro hk
          match k, hk with
          | 0, _ => simp
          | Nat.succ k', hk =>
            have hk' : k' <
                ((Interp.forListTrace iv tv body f rest (idx+1) (.vmapv es) s').1).length := by
              simpa using hk
            have := ih rest (idx+1) (.vmapv es) s' k' hk'
            simp only [List.get_cons_succ, List.take_succ_cons, List.countP_cons, this]
            simp
            omega
        | vclosure a b c =>
          intro hk
          match k, hk with
          | 0, _ => simp
          | Nat.succ k', hk =>
            have hk' : k' <
                ((Interp.forListTrace iv tv body f rest (idx+1) (.vclosure a b c) s').1).length := by
              simpa using hk
            have := ih rest (idx+1) (.vclosure a b c) s' k' hk'
            simp only [List.get_cons_succ, List.take_succ_cons, List.countP_cons, this]
            simp
            omega


/-- Staged parse results for the verified scripts, each checked by rfl
against the literal token and statement lists. -/
theorem lexAll_c1a : Lexer.lexAll "1 + 2;" = .ok toksC1a := rfl

theorem parse_c1a : ScriptParser.parse "1 + 2;" = .ok stmtsC1a := by
  simp only [ScriptParser.parse, lexAll_c1a]; rfl

theorem lexAll_c1b : Lexer.lexAll "1 + 2" = .ok toksC1b := rfl

theorem parse_c1b : ScriptParser.parse "1 + 2" = .ok stmtsC1b := by
  simp only [ScriptParser.parse, lexAll_c1b]; rfl

theorem lexAll_c3 : Lexer.lexAll counterScript = .ok toksC3 := rfl

theorem parse_c3 : ScriptParser.parse counterScript = .ok stmtsC3 := by
  simp only [ScriptParser.parse, lexAll_c3]; rfl

theorem lexAll_c5 : Lexer.lexAll blockAssignScript = .ok toksC5 := rfl

theorem parse_c5 : ScriptParser.parse blockAssignScript = .ok stmtsC5 := by
  simp only [ScriptParser.parse, lexAll_c5]; rfl

theorem lexAll_c6 : Lexer.lexAll forContinueScript = .ok toksC6 := rfl

theorem parse_c6 : ScriptParser.parse forContinueScript = .ok stmtsC6 := by
  simp only [ScriptParser.parse, lexAll_c6]; rfl

theorem lexAll_c9 : Lexer.lexAll "a + 1" = .ok toksC9 := rfl

theorem parse_c9 : ScriptParser.parse "a + 1" = .ok stmtsC9 := by
  simp only [ScriptParser.parse, lexAll_c9]; rfl

theorem lexAll_c10a : Lexer.lexAll "nil && true" = .ok toksC10a := rfl

theorem parse_c10a : ScriptParser.parse "nil && true" = .ok stmtsC10a := by
  simp only [ScriptParser.parse, lexAll_c10a]; rfl

theorem lexAll_c10b : Lexer.lexAll "1 || 2" = .ok toksC10b := rfl

theorem parse_c10b : ScriptParser.parse "1 || 2" = .ok stmtsC10b := by
  simp only [ScriptParser.parse, lexAll_c10b]; rfl

theorem lexAll_c10c : Lexer.lexAll "0 && (x = 1); x" = .ok toksC10c := rfl

theorem parse_c10c : ScriptParser.parse "0 && (x = 1); x" = .ok stmtsC10c := by
  simp only [ScriptParser.parse, lexAll_c10c]; rfl

theorem lexAll_c10d : Lexer.lexAll "1 && (x = 2); x" = .ok toksC10d := rfl

theorem parse_c10d : ScriptParser.parse "1 && (x = 2); x" = .ok stmtsC10d := by
  simp only [ScriptParser.parse, lexAll_c10d]; rfl

theorem lexAll_c7 : Lexer.lexAll "a && b" = .ok toksC7 := rfl

theorem pratt_c7 : Pratt.parse "a && b" = .ok exprC7 := by
  simp only [Pratt.parse, lexAll_c7, bind, Except.bind]; rfl

theorem lexAll_c8 : Lexer.lexAll "a. + b" = .ok toksC8 := rfl

/-- Decidable check that an interpreter run produced the numeric value n
(used to evaluate the pipeline by kernel reduction, since Value carries
nested lists and so has no derived decidable equality). -/
def Interp.resultIsNum (r : Except String (Value × IState)) (n : Int) : Bool :=
  match r with
  | .ok (.vnum m, _) => m == n
  | _ => false

/-- A run passing resultIsNum projects to the numeric script value. -/
theorem Interp.map_fst_of_resultIsNum (r : Except String (Value × IState)) (n : Int)
    (h : Interp.resultIsNum r n = true) : r.map (fun p => p.1) = .ok (.vnum n) := by
  cases r with
  | error e => simp [Interp.resultIsNum] at h
  | ok p =>
    obtain ⟨v, s⟩ := p
    cases v <;> simp [Interp.resultIsNum] at h
    subst h
    rfl

/-- Decidable check that an interpreter run produced null. -/
def Interp.resultIsNull (r : Except String (Value × IState)) : Bool :=
  match r with
  | .ok (.vnull, _) => true
  | _ => false

/-- A run passing resultIsNull projects to the null script value. -/
theorem Interp.map_fst_of_resultIsNull (r : Except String (Value × IState))
    (h : Interp.resultIsNull r = true) : r.map (fun p => p.1) = .ok .vnull := by
  cases r with
  | error e => simp [Interp.resultIsNull] at h
  | ok p =>
    obtain ⟨v, s⟩ := p
    cases v <;> simp [Interp.resultIsNull] at h
    rfl

/-- Decidable check that an interpreter run produced undefined. -/
def Interp.resultIsUndef (r : Except String (Value × IState)) : Bool :=
  match r with
  | .ok (.vundefined, _) => true
  | _ => false

/-- A run passing resultIsUndef projects to the undefined script value. -/
theorem Interp.map_fst_of_resultIsUndef (r : Except String (Value × IState))
    (h : Interp.resultIsUndef r = true) : r.map (fun p => p.1) = .ok .vundefined := by
  cases r with
  | error e => simp [Interp.resultIsUndef] at h
  | ok p =>
    obtain ⟨v, s⟩ := p
    cases v <;> simp [Interp.resultIsUndef] at h
    rfl

/-- Decidable check for claim C5: the run ends in undefined and the global
frame (scope 0) holds no binding for x. -/
def Interp.undefNoGlobalX (r : Except String (Value × IState)) : Bool :=
  match r with
  | .ok (.vundefined, s) => ((Interp.getScope s 0).vars.lookup "x").isNone
  | _ => false

/-- A run passing undefNoGlobalX projects to (undefined, no global x). -/
theorem Interp.map_of_undefNoGlobalX (r : Except String (Value × IState))
    (h : Interp.undefNoGlobalX r = true) :
    r.map (fun p => (p.1, (Interp.getScope p.2 0).vars.lookup "x"))
      = .ok (.vundefined, none) := by
  cases r with
  | error e => simp [Interp.undefNoGlobalX] at h
  | ok p =>
    obtain ⟨v, s⟩ := p
    cases v <;> simp [Interp.undefNoGlobalX] at h
    simpa [Except.map] using h

set_option maxRecDepth 100000

/-! ## Claim theorems -/

/-- Claim C1.  The claim states that a semicolon-terminated trailing
expression statement makes the script value nil.  The code disagrees:
ExprStmt discards the semicolon flag that ScriptParser passes to it, so
the pipeline returns the expression's value for "1 + 2;" exactly as for
"1 + 2".  This theorem evaluates the pipeline at the failing input (the
repository's own script test asserts null for a trailing-semicolon
script, so the claim reflects the intent and the code is the slip). -/
theorem claim_c1_semicolon_script_value :
    Interp.scriptValue 100 "1 + 2;" [] = .ok (.vnum 3)
  ∧ Interp.scriptValue 100 "1 + 2" [] = .ok (.vnum 3) := by
  constructor
  · simp only [Interp.scriptValue, Interp.runScript, parse_c1a]
    exact Interp.map_fst_of_resultIsNum _ _ (by decide)
  · simp only [Interp.scriptValue, Interp.runScript, parse_c1b]
    exact Interp.map_fst_of_resultIsNum _ _ (by decide)

/-- Claim C2.  For binary infix operators a, b of the binding-power
table with lbp(a) < lbp(b), the token stream x a y b z parses (by both
the Pratt parser and the script parser's expression core) exactly as
Node(a, x, Node(b, y, z)); equal-precedence left-associative operators
(right binding power = left + 1) group x a y a z to the left; and POW
groups to the right. -/
theorem claim_c2_operator_precedence :
    (∀ a ∈ binaryInfixOps, ∀ b ∈ binaryInfixOps, lbpOf a < lbpOf b →
        isRightNested a b (Pratt.parseTokens (xyzTokens a b)).toOption = true
      ∧ isRightNested a b (spExprTokens (xyzTokens a b)).toOption = true)
  ∧ (∀ a ∈ binaryInfixOps, rbpOf a = lbpOf a + 1 →
        isLeftNested a (Pratt.parseTokens (xyzTokens a a)).toOption = true
      ∧ isLeftNested a (spExprTokens (xyzTokens a a)).toOption = true)
  ∧ isRightNested .POW .POW (Pratt.parseTokens (xyzTokens .POW .POW)).toOption = true := by
  decide

/-- Witness for claim C2 at the concrete pair (+, *). -/
theorem claim_c2_operator_precedence_witness :
    isRightNested .ADD .MULTIPLY
      (Pratt.parseTokens (xyzTokens .ADD .MULTIPLY)).toOption = true :=
  (claim_c2_operator_precedence.1 .ADD (by decide) .MULTIPLY (by decide) (by decide)).1

/-- Claim C3.  Evaluating a lambda (resp. defining a fn) produces a
closure capturing the scope that is current at construction; and the
counter script — whose lambda assignment mutates the captured binding
across the three calls — yields the script value 3. -/
theorem claim_c3_closure_capture_counter :
    (∀ (fuel : Nat) (ps : List Token) (body : Expr) (s : IState),
        Interp.interp (fuel + 1) (.evalE (.lambda ps body)) s =
          .ok (.vclosure (ps.map (·.lexeme)) (.exprB body) s.current, s))
  ∧ (∀ (fuel : Nat) (name : Token) (params : List Token) (body : List Stmt) (s : IState),
        Interp.interp (fuel + 1) (.execStmt (.fnStmt name params body)) s =
          .ok (.vnull, Interp.define s name.lexeme
            (.vclosure (params.map (·.lexeme)) (.stmtsB body) s.current)))
  ∧ Interp.scriptValue 400 counterScript [] = .ok (.vnum 3) := by
  refine ⟨fun _ _ _ _ => rfl, fun _ _ _ _ _ => rfl, ?_⟩
  simp only [Interp.scriptValue, Interp.runScript, parse_c3]
  exact Interp.map_fst_of_resultIsNum _ _ (by decide)

/-- Counterexample to claim C4 as stated: the regex scan stops at the
next '/' even when it is escaped.  Lexing "/a\\/b/" yields a regex token
whose lexeme ends at the escaped slash (followed by an identifier and a
division token), not the full literal that the claim's "unescaped"
scanning rule predicts. -/
theorem claim_c4_escaped_slash_counterexample :
    Lexer.lexAll "/a\\/b/" = .ok
      [{ type := .REGEX, lexeme := "/a\\/", start := 0, stop := 4, line := 1 },
       { type := .IDENTIFIER, lexeme := "b", start := 4, stop := 5, line := 1 },
       { type := .DIVIDE, lexeme := "/", start := 5, stop := 6, line := 1 },
       { type := .EOF, lexeme := "", start := 6, stop := 6, line := 1 }]
  ∧ ("/a\\/" : String) ≠ "/a\\/b/" :=
  ⟨rfl, by decide⟩

/-- Counterexample to claim C5 as stated: an assignment to an unbound
name inside a nested block creates the binding in the block's own frame
(not a global one), so after the block exits the global frame still has
no binding for x and reading x yields undefined rather than the
assigned 1. -/
theorem claim_c5_global_binding_counterexample :
    (Interp.runScript 300 blockAssignScript []).map
        (fun p => (p.1, (Interp.getScope p.2 0).vars.lookup "x"))
      = .ok (.vundefined, none)
  ∧ Value.vundefined ≠ Value.vnum 1 := by
  constructor
  · simp only [Interp.runScript, parse_c5]
    exact Interp.map_of_undefNoGlobalX _ (by decide)
  · exact fun h => Value.noConfusion h

/-- Counterexample to claim C6 as stated: in a two-name for over a
three-element list whose first two iterations end in continue, the
source skips the index increment after a continue, so the index bound
at the third body start is 0 (the claim predicts 2), and the script
value (the index binding left behind by the loop) is 0. -/
theorem claim_c6_continue_index_counterexample :
    Interp.scriptValue 400 forContinueScript forContinueCtx = .ok (.vnum 0)
  ∧ Value.vnum 0 ≠ Value.vnum 2 := by
  constructor
  · simp only [Interp.scriptValue, Interp.runScript, parse_c6]
    exact Interp.map_fst_of_resultIsNum _ _ (by decide)
  · intro h
    injection h with h'
    exact absurd h' (by decide)

/-- Claim C7.  The pending execution compiled from "a && b" over a
runtime that evaluates the textual subexpressions against the provided
context: with only a=false, canExecute is true and execute returns
false; with only a=true, canExecute is false; after additionally
b=true, canExecute is true and execute returns true. -/
theorem claim_c7_pending_scenarios :
    c7scenarioA = .ok (true, false)
  ∧ c7scenarioB = .ok false
  ∧ c7scenarioC = .ok (true, true) := by
  refine ⟨?_, ?_, ?_⟩ <;>
    (first
      | (simp only [c7scenarioA, Executor.compile, pratt_c7, bind, Except.bind]; rfl)
      | (simp only [c7scenarioB, Executor.compile, pratt_c7, bind, Except.bind]; rfl)
      | (simp only [c7scenarioC, Executor.compile, pratt_c7, bind, Except.bind]; rfl))

/-- Counterexample to claim C8 as stated: lexing "a. + b" succeeds and
emits the dot token followed by the offending + token — the lexer does
not raise the claimed parse error (its object-access assertions are
unreachable, since the identifier scan never stands on a dot). -/
theorem claim_c8_dot_lexes_counterexample :
    Lexer.lexAll "a. + b" = .ok
      [{ type := .IDENTIFIER, lexeme := "a", start := 0, stop := 1, line := 1 },
       { type := .DOT, lexeme := ".", start := 1, stop := 2, line := 1 },
       { type := .ADD, lexeme := "+", start := 3, stop := 4, line := 1 },
       { type := .IDENTIFIER, lexeme := "b", start := 5, stop := 6, line := 1 },
       { type := .EOF, lexeme := "", start := 6, stop := 6, line := 1 }] :=
  rfl

/-- Claim C9.  StaticAnalyzer.analyze "a + 1" with no caller-supplied
environment yields exactly one diagnostic — "Undefined variable 'a'" at
line 1 with error severity and source static-analysis — and analysing
the unresolved identifier leaf recovers with type any (so nothing
cascades). -/
theorem claim_c9_undefined_variable_diagnostic :
    Analyzer.analyze 100 [] "a + 1" =
      [{ message := "Undefined variable 'a'", line := 1,
         severity := .error, source := "static-analysis" }]
  ∧ (Analyzer.analyzeAux 10 (.aExpr (.leaf (mkIdentTok "a")) 0) (Analyzer.initAState [])).1
      = .anyTy := by
  constructor
  · simp only [Analyzer.analyze, parse_c9]; rfl
  · rfl

/-- Claim C4 (amended).  On a '/' character the lexer emits the division
token exactly when the last emitted token's kind is number, identifier,
right-paren or right-bracket, and for every other last-token kind it
scans a regular-expression literal; the scan (parseNextRegexLiteral)
stops at the first '/', newline or carriage return, with no provision
for escaped slashes — the word "unescaped" in the claim is the part the
code does not implement.  Concretely, "/ab/" lexes as one regex token. -/
theorem claim_c4_divide_regex_decision :
    (∀ (fuel : Nat) (s : LexState),
        Lexer.hasNext s = true →
        Lexer.currentChar (Lexer.nextChar s) = 47 →
        ((Lexer.nextChar s).lastToken.type ∈ Lexer.divideValidFrom →
          Lexer.nextAux (fuel + 1) s = .ok (Lexer.mkToken (Lexer.nextChar s) .DIVIDE "/"))
      ∧ ((Lexer.nextChar s).lastToken.type ∉ Lexer.divideValidFrom →
          Lexer.nextAux (fuel + 1) s = Lexer.parseNextRegexLiteral (Lexer.nextChar s)))
  ∧ Lexer.lexAll "/ab/" = .ok [tk .REGEX "/ab/" 0 4 1, tk .EOF "" 4 4 1] := by
  constructor
  · intro fuel s hn hc
    constructor <;> intro hd <;>
      simp [Lexer.nextAux, hn, hc, hd, Lexer.isCommentStart, Lexer.isNumberLiteralStart,
            Lexer.expect,
            (by decide : LexerUtil.isDigit 47 = false),
            (by decide : LexerUtil.isIdentifierStart 47 = false),
            (by decide : LexerUtil.isStringLiteralStart 47 = false)]
  · rfl

/-- Witness for claim C4: with the last token a number, the '/' of "/2"
is emitted as the division token. -/
theorem claim_c4_divide_regex_decision_witness :
    Lexer.nextAux (3 + 1) { Lexer.initState "/2" with lastToken := tk .NUMBER "1" 0 1 1 }
      = .ok (Lexer.mkToken
          (Lexer.nextChar { Lexer.initState "/2" with lastToken := tk .NUMBER "1" 0 1 1 })
          .DIVIDE "/") :=
  ((claim_c4_divide_regex_decision.1 3
      { Lexer.initState "/2" with lastToken := tk .NUMBER "1" 0 1 1 }
      rfl rfl).1 (by decide))

/-- Claim C5 (amended).  Interpreter.assign mutates the nearest frame of
the scope chain that binds x; when no frame in the chain binds x the
binding is created in the CURRENT frame, not a global one (the
correction to the claim); and an identifier assignment expression
evaluates to the assigned value. -/
theorem claim_c5_assign_nearest_or_current :
    (∀ (s : IState) (x : String) (v : Value) (j : Nat),
        nearestBinder s x = some j →
        Interp.assign s x v =
          { s with
            scopes := s.scopes.set j
              ({ s.scopes.getD j emptyScope with
                 vars := Interp.setVar (s.scopes.getD j emptyScope).vars x v }) })
  ∧ (∀ (s : IState) (x : String) (v : Value),
        nearestBinder s x = none →
        Interp.assign s x v = Interp.define s x v)
  ∧ (∀ (fuel : Nat) (aTok lt : Token) (rhs : Expr) (s s2 : IState) (v : Value),
        aTok.type = .ASSIGN → lt.type = .IDENTIFIER →
        Interp.interp fuel (.evalE rhs) s = .ok (v, s2) →
        Interp.interp (fuel + 1) (.evalE (.node aTok [.leaf lt, rhs])) s =
          .ok (v, Interp.assign s2 lt.lexeme v)) := by
  refine ⟨?_, ?_, ?_⟩
  · intro s x v j hj
    unfold nearestBinder at hj
    unfold Interp.assign
    rw [assignAux_eq_nearest, hj]
    rfl
  · intro s x v hj
    unfold nearestBinder at hj
    unfold Interp.assign
    rw [assignAux_eq_nearest, hj]
    rfl
  · intro fuel aTok lt rhs s s2 v ha hl hr
    obtain ⟨aty, alx, ast, asp, aln⟩ := aTok
    obtain ⟨lty, llx, lst, lsp, lln⟩ := lt
    cases ha
    cases hl
    simp [Interp.interp, hr, bind, Except.bind]

/-- Witness for claim C5: assigning to the already-bound x of a
one-frame state mutates frame 0, and evaluating `x = 5` on a fresh
state yields 5. -/
theorem claim_c5_assign_nearest_or_current_witness :
    (Interp.assign (Interp.new [("x", Value.vnum 0)]) "x" (Value.vnum 1) =
      { Interp.new [("x", Value.vnum 0)] with
        scopes :=
          (Interp.new [("x", Value.vnum 0)]).scopes.set 0
            ({ (Interp.new [("x", Value.vnum 0)]).scopes.getD 0 emptyScope with
               vars :=
                 Interp.setVar
                   ((Interp.new [("x", Value.vnum 0)]).scopes.getD 0 emptyScope).vars
                   "x" (Value.vnum 1) }) })
  ∧ (Interp.interp (4 + 1)
        (.evalE (.node (mkOpTok .ASSIGN) [.leaf (mkIdentTok "x"),
                                          .leaf (tk .NUMBER "5" 0 1 1)]))
        (Interp.new []) =
      .ok (Value.vnum 5, Interp.assign (Interp.new []) "x" (Value.vnum 5))) :=
  ⟨claim_c5_assign_nearest_or_current.1 (Interp.new [("x", Value.vnum 0)]) "x"
      (Value.vnum 1) 0 rfl,
   claim_c5_assign_nearest_or_current.2.2 4 (mkOpTok .ASSIGN) (mkIdentTok "x")
      (.leaf (tk .NUMBER "5" 0 1 1)) (Interp.new []) (Interp.new []) (Value.vnum 5)
      rfl rfl rfl⟩

/-- Claim C6 (amended).  Per iteration of a list for-loop, the bound
index equals the number of PREVIOUS iterations whose body did not end in
a continue signal (the source increments the index only then), not the
number of all previous iterations; and the instrumented trace agrees
with the interpreter on the loop's result. -/
theorem claim_c6_for_index_countP (iv : Option Token) (tv : Token) (body : List Stmt)
    (fuel : Nat) (items : List Value) (s : IState) :
    (∀ (k : Nat)
        (hk : k < ((Interp.forListTrace iv tv body fuel items 0 .vnull s).1).length),
      (((Interp.forListTrace iv tv body fuel items 0 .vnull s).1).get ⟨k, hk⟩).1 =
        ((((Interp.forListTrace iv tv body fuel items 0 .vnull s).1).take k).countP
          (fun p => !p.2)))
  ∧ (Interp.forListTrace iv tv body fuel items 0 .vnull s).2 =
      Interp.interp fuel (.forList iv tv items body 0 .vnull) s := by
  constructor
  · intro k hk
    have h := forListTrace_idx iv tv body fuel items 0 .vnull s k hk
    simpa using h
  · exact forListTrace_agrees iv tv body fuel items 0 .vnull s

/-- Witness for claim C6: over two items with an empty body (no
continue), the index bound at the second iteration is the countP of the
first — and the trace result agrees with the interpreter. -/
theorem claim_c6_for_index_countP_witness :
    (((Interp.forListTrace (some (mkIdentTok "i")) (mkIdentTok "x") [] 10
        [Value.vnum 7, Value.vnum 8] 0 .vnull (Interp.new [])).1).get ⟨1, by decide⟩).1 =
      ((((Interp.forListTrace (some (mkIdentTok "i")) (mkIdentTok "x") [] 10
        [Value.vnum 7, Value.vnum 8] 0 .vnull (Interp.new [])).1).take 1).countP
          (fun p => !p.2)) :=
  (claim_c6_for_index_countP (some (mkIdentTok "i")) (mkIdentTok "x") [] 10
      [Value.vnum 7, Value.vnum 8] (Interp.new [])).1 1 (by decide)

/-- Claim C8 (amended).  On a '.' that does not begin a number literal
the lexer emits the DOT token unconditionally — its object-access
assertion is never consulted — so "a. + b" lexes successfully and the
failure the claim expects surfaces only in the script parser, as an
Unexpected-primary error on the '+' token. -/
theorem claim_c8_dot_emitted_and_parse_fails :
    (∀ (fuel : Nat) (s : LexState),
        Lexer.hasNext s = true →
        Lexer.currentChar (Lexer.nextChar s) = 46 →
        LexerUtil.isDigit (Lexer.peekChar (Lexer.nextChar s)) = false →
        (Lexer.peekChar (Lexer.nextChar s) == 101) = false →
        (Lexer.peekChar (Lexer.nextChar s) == 69) = false →
        Lexer.nextAux (fuel + 1) s = .ok (Lexer.mkToken (Lexer.nextChar s) .DOT "."))
  ∧ ScriptParser.parse "a. + b" =
      .error { message := "Unexpected primary token: +",
               token := some (tk .ADD "+" 3 4 1) } := by
  constructor
  · intro fuel s hn hc hd h101 h69
    simp [Lexer.nextAux, hn, hc, hd, h101, h69, Lexer.isCommentStart,
          Lexer.isNumberLiteralStart, Lexer.expect,
          (by decide : LexerUtil.isDigit 46 = false),
          (by decide : LexerUtil.isIdentifierStart 46 = false),
          (by decide : LexerUtil.isStringLiteralStart 46 = false)]
  · simp only [ScriptParser.parse, lexAll_c8]
    rfl

/-- Witness for claim C8: the '.' of ".x" (peek 'x') is emitted as the
dot token. -/
theorem claim_c8_dot_emitted_and_parse_fails_witness :
    Lexer.nextAux (3 + 1) (Lexer.initState ".x")
      = .ok (Lexer.mkToken (Lexer.nextChar (Lexer.initState ".x")) .DOT ".") :=
  claim_c8_dot_emitted_and_parse_fails.1 3 (Lexer.initState ".x") rfl rfl rfl rfl rfl

/-- Claim C10.  A && node whose left operand evaluates to a value
returns that value itself when it is falsy and otherwise the right
operand's result, evaluating the right operand only then; dually a ||
node returns the truthy left value itself and otherwise the right
operand's result.  Concretely: "nil && true" evaluates to null,
"1 || 2" to 1, the right operand of a falsy && is never evaluated
("0 && (x = 1); x" leaves x undefined), and a truthy && returns the
right value ("1 && (x = 2); x" yields 2). -/
theorem claim_c10_logical_return_operands :
    (∀ (fuel : Nat) (op : Token) (a b : Expr) (s s2 : IState) (lv : Value),
        op.type = .LOGIC_AND →
        Interp.interp fuel (.evalE a) s = .ok (lv, s2) →
        Interp.interp (fuel + 1) (.evalE (.node op [a, b])) s =
          (if lv.truthy then Interp.interp fuel (.evalE b) s2 else .ok (lv, s2)))
  ∧ (∀ (fuel : Nat) (op : Token) (a b : Expr) (s s2 : IState) (lv : Value),
        op.type = .LOGIC_OR →
        Interp.interp fuel (.evalE a) s = .ok (lv, s2) →
        Interp.interp (fuel + 1) (.evalE (.node op [a, b])) s =
          (if lv.truthy then .ok (lv, s2) else Interp.interp fuel (.evalE b) s2))
  ∧ Interp.scriptValue 100 "nil && true" [] = .ok .vnull
  ∧ Interp.scriptValue 100 "1 || 2" [] = .ok (.vnum 1)
  ∧ Interp.scriptValue 100 "0 && (x = 1); x" [] = .ok .vundefined
  ∧ Interp.scriptValue 100 "1 && (x = 2); x" [] = .ok (.vnum 2) := by
  refine ⟨?_, ?_, ?_, ?_, ?_, ?_⟩
  · intro fuel op a b s s2 lv hop hl
    obtain ⟨ty, lx, st, sp, ln⟩ := op
    cases hop
    simp [Interp.interp, hl, bind, Except.bind]
  · intro fuel op a b s s2 lv hop hl
    obtain ⟨ty, lx, st, sp, ln⟩ := op
    cases hop
    simp [Interp.interp, hl, bind, Except.bind]
  · simp only [Interp.scriptValue, Interp.runScript, parse_c10a]
    exact Interp.map_fst_of_resultIsNull _ (by decide)
  · simp only [Interp.scriptValue, Interp.runScript, parse_c10b]
    exact Interp.map_fst_of_resultIsNum _ _ (by decide)
  · simp only [Interp.scriptValue, Interp.runScript, parse_c10c]
    exact Interp.map_fst_of_resultIsUndef _ (by decide)
  · simp only [Interp.scriptValue, Interp.runScript, parse_c10d]
    exact Interp.map_fst_of_resultIsNum _ _ (by decide)

/-- Witness for claim C10: a && whose left operand is the literal 0
reduces to the if on that value's truthiness. -/
theorem claim_c10_logical_return_operands_witness :
    Interp.interp (4 + 1)
        (.evalE (.node (mkOpTok .LOGIC_AND)
          [.leaf (tk .NUMBER "0" 0 1 1), .leaf (tk .NUMBER "9" 4 5 1)]))
        (Interp.new []) =
      (if (Value.vnum 0).truthy
        then Interp.interp 4 (.evalE (.leaf (tk .NUMBER "9" 4 5 1))) (Interp.new [])
        else .ok (Value.vnum 0, Interp.new [])) :=
  claim_c10_logical_return_operands.1 4 (mkOpTok .LOGIC_AND)
    (.leaf (tk .NUMBER "0" 0 1 1)) (.leaf (tk .NUMBER "9" 4 5 1))
    (Interp.new []) (Interp.new []) (Value.vnum 0) rfl rfl

end Aviator
